import Mathlib

/-!
Shallow embedding of the rustracer path tracer (src/common.rs, src/scene/geo.rs,
src/scene/objects.rs, src/scene/mod.rs, src/raytracer.rs, src/canvas.rs).

Conventions of the embedding:
* Machine floats (f32/f64) are embedded as exact rationals.  Decimal literals of
  the source become the corresponding rationals.
* The external square root (f32::sqrt / f64::sqrt) is passed around as an
  explicit function parameter `sq : Rat -> Rat`; theorems that need it to behave
  like a square root say so by hypothesis, and concrete runs use stub functions
  that are exact on the values actually taken.
* Randomness (the global `fastrand` generator) is an oracle: scalar draws come
  from a tape of rationals and the sampled directions of `Vector::random_sphere`
  and `Vector::random_hemisphere` (whose trigonometric construction is external
  to the claims) are read off a tape of vectors.  A cursor pair is threaded in
  state-passing style exactly along the source's draw sites.
* The external `bvh` crate is embedded structurally: the node array built by
  `BVH::build` is a binary tree whose nodes carry the child AABBs, and the
  crate's `Ray::intersects_aabb` slab test is an abstract boolean predicate.
-/

namespace Rustracer

/-- Embedding of `EPS` from src/common.rs (`pub const EPS: f32 = 0.0000001`). -/
def EPS : ℚ := 1 / 10000000

/-- Embedding of the `PI` constant used by src/scene/objects.rs and
src/raytracer.rs; the exact rational value of `std::f64::consts::PI`. -/
def PI : ℚ := 884279719003555 / 281474976710656

/-- Linear RGB radiance, from `Spectrum` in src/common.rs. -/
structure Spectrum where
  r : ℚ
  g : ℚ
  b : ℚ
deriving DecidableEq

/-- `Spectrum::new_f`. -/
def Spectrum.new_f (r g b : ℚ) : Spectrum := ⟨r, g, b⟩

/-- `Spectrum::black`. -/
def Spectrum.black : Spectrum := Spectrum.new_f 0 0 0

/-- `Spectrum::white`. -/
def Spectrum.white : Spectrum := Spectrum.new_f 1 1 1

/-- `Spectrum::grey`. -/
def Spectrum.grey : Spectrum := Spectrum.new_f (78/100) (78/100) (78/100)

/-- `Spectrum::red`. -/
def Spectrum.red : Spectrum := Spectrum.new_f 1 0 0

/-- `Spectrum::blue`. -/
def Spectrum.blue : Spectrum := Spectrum.new_f 0 0 1

/-- `Spectrum::green`. -/
def Spectrum.green : Spectrum := Spectrum.new_f 0 1 0

/-- `Spectrum::is_black`: total energy at most `EPS`. -/
def Spectrum.is_black (s : Spectrum) : Bool := s.r + s.g + s.b ≤ EPS

/-- Componentwise addition (`impl Add for Spectrum`). -/
instance : Add Spectrum := ⟨fun a c => ⟨a.r + c.r, a.g + c.g, a.b + c.b⟩⟩

/-- Componentwise multiplication (`impl Mul for Spectrum`). -/
instance : Mul Spectrum := ⟨fun a c => ⟨a.r * c.r, a.g * c.g, a.b * c.b⟩⟩

/-- Scalar multiplication (`impl Mul<f64> for Spectrum`). -/
instance : HMul Spectrum ℚ Spectrum := ⟨fun a q => ⟨a.r * q, a.g * q, a.b * q⟩⟩

/-- `weighted_coin_flip` from src/common.rs; the drawn random number `x`
(`fastrand::f32()`) is supplied by the caller. -/
def weighted_coin_flip (x probability : ℚ) : Bool := x ≤ probability

/-- A 3D triple, standing for both `Point` and `Vector` of src/scene/geo.rs
(both wrap a 3-vector of coordinates). -/
structure Vec3 where
  x : ℚ
  y : ℚ
  z : ℚ
deriving DecidableEq

instance : Add Vec3 := ⟨fun a c => ⟨a.x + c.x, a.y + c.y, a.z + c.z⟩⟩

instance : Sub Vec3 := ⟨fun a c => ⟨a.x - c.x, a.y - c.y, a.z - c.z⟩⟩

instance : Neg Vec3 := ⟨fun a => ⟨-a.x, -a.y, -a.z⟩⟩

/-- Scalar multiplication (`impl Mul<f32> for Vector`). -/
instance : HMul Vec3 ℚ Vec3 := ⟨fun a q => ⟨a.x * q, a.y * q, a.z * q⟩⟩

/-- `Vector::dot`. -/
def Vec3.dot (a c : Vec3) : ℚ := a.x * c.x + a.y * c.y + a.z * c.z

/-- `Vector::cross`. -/
def Vec3.cross (a c : Vec3) : Vec3 :=
  ⟨a.y * c.z - a.z * c.y, a.z * c.x - a.x * c.z, a.x * c.y - a.y * c.x⟩

/-- `Vector::norm` (the norm is the external square root of the dot square). -/
def Vec3.norm (sq : ℚ → ℚ) (v : Vec3) : ℚ := sq (v.dot v)

/-- `Vector::normalized` (`nalgebra`: divide by the norm). -/
def Vec3.normalized (sq : ℚ → ℚ) (v : Vec3) : Vec3 := v * (1 / v.norm sq)

/-- `Vector::to_coord_space` from src/scene/geo.rs (Frisvad ONB rotation of a
local sample into the frame of `normal`). -/
def Vec3.to_coord_space (v normal : Vec3) : Vec3 :=
  let n := normal
  let tb : Vec3 × Vec3 :=
    if n.z < -(9999999/10000000) then
      (⟨0, -1, 0⟩, ⟨-1, 0, 0⟩)
    else
      let a := 1 / (1 + n.z)
      let bv := -n.x * n.y * a
      (⟨1 - n.x * n.x * a, bv, -n.x⟩, ⟨bv, 1 - n.y * n.y * a, -n.y⟩)
  tb.1 * v.x + tb.2 * v.y + n * v.z

/-- `Ray` from src/scene/geo.rs. -/
structure Ray where
  origin : Vec3
  direction : Vec3
deriving DecidableEq

/-- `Ray::new`: normalizes the direction. -/
def Ray.new (sq : ℚ → ℚ) (origin direction : Vec3) : Ray :=
  ⟨origin, direction.normalized sq⟩

/-- `Ray::new_prenormalized`: stores the direction as given. -/
def Ray.new_prenormalized (origin direction : Vec3) : Ray := ⟨origin, direction⟩

/-- `BSDF` enum from src/scene/objects.rs. -/
inductive BSDF where
  | Diffuse : BSDF
  | Specular : BSDF
  | Glass : ℚ → BSDF
deriving DecidableEq

/-- `Material` from src/scene/objects.rs. -/
structure Material where
  bsdf : BSDF
  reflectance : Spectrum
  emittance : Spectrum
deriving DecidableEq

/-- `Material::new`. -/
def Material.new (bsdf : BSDF) (reflectance emittance : Spectrum) : Material :=
  ⟨bsdf, reflectance, emittance⟩

/-- `Sphere` from src/scene/objects.rs.  The `node_index` slot is only written
by the external BVH build and read back by it, so it is not part of the
embedding. -/
structure Sphere where
  center : Vec3
  radius : ℚ
  material : Material
deriving DecidableEq

/-- `Sphere::new`. -/
def Sphere.new (center : Vec3) (radius : ℚ) (material : Material) : Sphere :=
  ⟨center, radius, material⟩

/-- `Triangle` from src/scene/objects.rs (vertices, stored face normal,
material; `node_index` omitted as for `Sphere`). -/
structure Triangle where
  p1 : Vec3
  p2 : Vec3
  p3 : Vec3
  normal : Vec3
  material : Material
deriving DecidableEq

/-- `Triangle::new`: stores the normalized face normal. -/
def Triangle.new (sq : ℚ → ℚ) (p1 p2 p3 : Vec3) (material : Material) : Triangle :=
  ⟨p1, p2, p3, ((p2 - p1).cross (p3 - p1)).normalized sq, material⟩

/-- `Sphere::intersect` from src/scene/objects.rs, translated line by line. -/
def Sphere.intersect (sq : ℚ → ℚ) (s : Sphere) (ray : Ray) : Option ℚ :=
  let l : Vec3 := s.center - ray.origin
  let adj := l.dot ray.direction
  let d2 := l.dot l - adj * adj
  let radius2 := s.radius * s.radius
  if d2 > radius2 then
    none
  else
    let thc := sq (radius2 - d2)
    let t0 := adj - thc
    let t1 := adj + thc
    let t := if t0 > t1 then t1 else t0
    if t < 0 + EPS then
      if t1 < 0 then none else some t1
    else
      some t

/-- `Sphere::surface_normal`. -/
def Sphere.surface_normal (sq : ℚ → ℚ) (s : Sphere) (point : Vec3) : Vec3 :=
  (point - s.center).normalized sq

/-- `Sphere::random_point`: `center + random_unit_vector * radius`; the unit
vector drawn by `Vector::random_sphere` is the oracle input `rv`. -/
def Sphere.random_point (s : Sphere) (rv : Vec3) : Vec3 :=
  s.center + rv * s.radius

/-- `Triangle::intersect` from src/scene/objects.rs, translated line by line.
Note the second rejection reads `if v < 0.0 || u > 1.0` in the source (it
re-tests `u`, already known to be at most 1). -/
def Triangle.intersect (tr : Triangle) (ray : Ray) : Option ℚ :=
  let e1 := tr.p2 - tr.p1
  let e2 := tr.p3 - tr.p1
  let h := ray.direction.cross e2
  let a := e1.dot h
  if |a| < EPS then
    none
  else
    let f := 1 / a
    let s := ray.origin - tr.p1
    let u := f * s.dot h
    if u < 0 ∨ u > 1 then
      none
    else
      let q := s.cross e1
      let v := f * ray.direction.dot q
      if v < 0 ∨ u > 1 then
        none
      else
        let t := f * e2.dot q
        if t > EPS then some t else none

/-- `Triangle::surface_normal`: the stored face normal. -/
def Triangle.surface_normal (tr : Triangle) : Vec3 := tr.normal

/-- `Object` enum from src/scene/objects.rs. -/
inductive Object where
  | Triangle : Triangle → Object
  | Sphere : Sphere → Object
deriving DecidableEq

/-- `Object::intersect`: dispatch on the variant. -/
def Object.intersect (sq : ℚ → ℚ) : Object → Ray → Option ℚ
  | Object.Triangle tr, ray => tr.intersect ray
  | Object.Sphere s, ray => s.intersect sq ray

/-- `Object::surface_normal`. -/
def Object.surface_normal (sq : ℚ → ℚ) : Object → Vec3 → Vec3
  | Object.Triangle tr, _ => tr.surface_normal
  | Object.Sphere s, point => s.surface_normal sq point

/-- `Object::material`. -/
def Object.material : Object → Material
  | Object.Triangle tr => tr.material
  | Object.Sphere s => s.material

/-- `LightSample` from src/scene/objects.rs. -/
structure LightSample where
  pdf : ℚ
  wi : Vec3

/-- `Object::sample_l`.  For a triangle the source calls `unimplemented!()`
(a panic), embedded as `none`; for a sphere it draws a point on the surface
(oracle input `rv`) and returns the cap-area weight and direction. -/
def Object.sample_l (sq : ℚ → ℚ) (o : Object) (intersection_point : Vec3)
    (rv : Vec3) : Option LightSample :=
  match o with
  | Object.Triangle _ => none
  | Object.Sphere sphere =>
    let p := intersection_point
    let s := sphere.random_point rv
    let ps := s - p
    let wi := ps.normalized sq
    let d_c := (sphere.center - p).norm sq
    let d_s := ps.norm sq
    let cos_a := (d_c ^ 2 + sphere.radius ^ 2 - d_s ^ 2) / (2 * d_c * sphere.radius)
    let pdf := 2 * PI * (1 - cos_a)
    some ⟨pdf, wi⟩

/-- `Object::bsdf`: diffuse is `reflectance / pi`, specular and glass are
black. -/
def Object.bsdf (o : Object) (_wi _wo : Vec3) : Spectrum :=
  let material := o.material
  match material.bsdf with
  | BSDF.Diffuse => material.reflectance * (1 / PI)
  | BSDF.Specular => Spectrum.black
  | BSDF.Glass _ => Spectrum.black

/-- The free function `reflect` (Scratchapixel mirror formula). -/
def reflect (v n : Vec3) : Vec3 := v - (n * (2 : ℚ)) * v.dot n

/-- `Refraction` helper struct. -/
structure Refraction where
  wi : Vec3
  R : ℚ
  eta : ℚ

/-- The free function `refract`, translated from src/scene/objects.rs. -/
def refract (sq : ℚ → ℚ) (v normal : Vec3) (eta : ℚ) : Option Refraction :=
  let n_dot_v := normal.dot v
  let cosv0 := max (-1) (min 1 n_dot_v)
  let st : Vec3 × ℚ × ℚ × ℚ :=
    if cosv0 < 0 then (normal, -cosv0, 1, eta) else (-normal, cosv0, eta, 1)
  let n := st.1
  let cosv := st.2.1
  let etav := st.2.2.1
  let etat := st.2.2.2
  let eta2 := etav / etat
  let k := 1 - eta2 * eta2 * (1 - cosv * cosv)
  if k < 0 then
    none
  else
    let R := ((etav - etat) / (etav + etat)) ^ 2
    let wi := v * eta2 + n * (eta2 * cosv - sq k)
    some ⟨wi, R, eta2⟩

/-- `BSDFSample` from src/scene/objects.rs. -/
structure BSDFSample where
  wi : Vec3
  pdf : ℚ
  reflected : Spectrum
deriving DecidableEq

/-- `Object::sample_bsdf`.  The hemisphere direction drawn for the diffuse
branch is the oracle input `rv`; the `fastrand::f64()` draw of the glass
branch is the oracle input `glassRand`. -/
def Object.sample_bsdf (sq : ℚ → ℚ) (o : Object) (wo normal : Vec3)
    (rv : Vec3) (glassRand : ℚ) : BSDFSample :=
  let material := o.material
  match material.bsdf with
  | BSDF.Diffuse =>
    let wi := rv.to_coord_space normal
    let pdf := 2 * PI
    let reflected := o.bsdf wi wo
    ⟨wi, pdf, reflected⟩
  | BSDF.Specular =>
    let wi := reflect wo normal
    let pdf := 1
    let cos_theta := |wi.dot normal|
    let reflected := material.reflectance * (1 / cos_theta)
    ⟨wi, pdf, reflected⟩
  | BSDF.Glass eta =>
    match refract sq wo normal eta with
    | none =>
      let wi := reflect wo normal
      let pdf := 1
      let inv_cos_theta := 1 / |wi.dot normal|
      let reflected := material.reflectance * inv_cos_theta
      ⟨wi, pdf, reflected⟩
    | some refraction =>
      if glassRand > refraction.R then
        let wi := reflect wo normal
        let pdf := refraction.R
        let inv_cos_theta := 1 / |wi.dot normal|
        let reflected := material.reflectance * inv_cos_theta
        ⟨wi, pdf, reflected⟩
      else
        let wi := refraction.wi
        let pdf := 1 - refraction.R
        let inv_cos_theta := 1 / |wi.dot normal|
        let reflected :=
          material.reflectance * inv_cos_theta * pdf * refraction.eta ^ 2
        ⟨wi, pdf, reflected⟩

/-- An axis-aligned bounding box as stored in the external `bvh` crate's
nodes (corner points). -/
structure Aabb where
  lo : Vec3
  hi : Vec3
deriving DecidableEq

/-- The node structure of the external crate's `BVH` (`BVHNode::Node` carries
the two child boxes, `BVHNode::Leaf` a primitive index), embedded as the tree
the node array encodes. -/
inductive BVHTree where
  | node : Aabb → BVHTree → Aabb → BVHTree → BVHTree
  | leaf : ℕ → BVHTree
deriving DecidableEq

/-- Size measure used to show the stack traversals terminate. -/
def BVHTree.weight : BVHTree → ℕ
  | BVHTree.node _ l _ r => l.weight + r.weight + 1
  | BVHTree.leaf _ => 1

/-- Total weight of a traversal stack. -/
def stackWeight (stack : List BVHTree) : ℕ := (stack.map BVHTree.weight).sum

/-- Embedding of `Scene` from src/scene/mod.rs: the primitive array, the tree
encoded by the BVH node array, and the light index list. -/
structure Scene where
  objects : List Object
  bvh : BVHTree
  light_indexes : List ℕ

/-- Fallback primitive for out-of-range indexing (the Rust code would panic;
validity hypotheses make this value irrelevant). -/
def defaultObject : Object :=
  Object.Sphere (Sphere.new ⟨0, 0, 0⟩ 0 (Material.new BSDF.Diffuse Spectrum.black Spectrum.black))

/-- `Scene::new` from src/scene/mod.rs: triangles then spheres into one array,
light indexes by scanning for non-black emittance, then the external
`BVH::build` (supplied as `build`, it reads the objects and does not change
them). -/
def Scene.new (build : List Object → BVHTree)
    (triangles : List Triangle) (spheres : List Sphere) : Scene :=
  let objects := triangles.map Object.Triangle ++ spheres.map Object.Sphere
  let light_indexes :=
    (List.range objects.length).filter
      (fun i => !(((objects.getD i defaultObject).material).emittance.is_black))
  ⟨objects, build objects, light_indexes⟩

/-- `Scene::light_indexes`. -/
def Scene.lightIndexList (s : Scene) : List ℕ := s.light_indexes

/-- `Scene::get_object`. -/
def Scene.get_object (s : Scene) (index : ℕ) : Object :=
  s.objects.getD index defaultObject

/-- The raytracer iterates `self.scene.lights()`: the light objects, i.e. the
objects selected by the light index list. -/
def Scene.lights (s : Scene) : List Object := s.light_indexes.map s.get_object

/-- Inner loop of `Scene::intersect` (src/scene/mod.rs): iterative stack
traversal keeping the closest accepted hit.  The external crate's slab test
`Ray::intersects_aabb` is the abstract predicate `ah`; `best` holds
`(min_object, min_dist)` with `none` standing for `min_dist = INFINITY`.
The source pushes the left child then the right child, so the right child is
popped first; the stack is a cons list with its head as top. -/
def intersectStack (sq : ℚ → ℚ) (ah : Aabb → Ray → Bool)
    (objects : List Object) (ray : Ray) :
    List BVHTree → Option (ℕ × ℚ) → Option (ℕ × ℚ)
  | [], best => best
  | BVHTree.node la l ra r :: rest, best =>
    intersectStack sq ah objects ray
      ((if ah ra ray then [r] else []) ++ (if ah la ray then [l] else []) ++ rest) best
  | BVHTree.leaf i :: rest, best =>
    let best2 :=
      match (objects.getD i defaultObject).intersect sq ray with
      | none => best
      | some d =>
        match best with
        | none => some (i, d)
        | some (j, m) => if d < m then some (i, d) else some (j, m)
    intersectStack sq ah objects ray rest best2
termination_by stack _ => stackWeight stack
decreasing_by
  all_goals simp [stackWeight, BVHTree.weight]
  all_goals split <;> split <;> simp [stackWeight, BVHTree.weight] <;> omega

/-- `RayIntersection` from src/scene/mod.rs (the `&Object` reference is the
object value itself). -/
structure RayIntersection where
  distance : ℚ
  object : Object
  ray : Ray

/-- `RayIntersection::point`: the hit point pulled back by `EPS` along the
ray. -/
def RayIntersection.point (ri : RayIntersection) : Vec3 :=
  let min_dist := ri.distance - EPS
  let scaled_vector := ri.ray.direction * min_dist
  ri.ray.origin + scaled_vector

/-- `Scene::intersect`: run the traversal from the root and wrap the result. -/
def Scene.intersect (sq : ℚ → ℚ) (ah : Aabb → Ray → Bool) (s : Scene)
    (ray : Ray) : Option (ℕ × ℚ) :=
  intersectStack sq ah s.objects ray [s.bvh] none

/-- `Scene::intersect` result as a `RayIntersection`, as the caller sees it. -/
def Scene.intersectRI (sq : ℚ → ℚ) (ah : Aabb → Ray → Bool) (s : Scene)
    (ray : Ray) : Option RayIntersection :=
  (s.intersect sq ah ray).map fun p => ⟨p.2, s.get_object p.1, ray⟩

/-- Inner loop of `Scene::is_occluded` (src/scene/mod.rs): any-hit traversal
with early exit on the first blocker with `d > 0.0 && d < max_dist` and black
emittance. -/
def occludedStack (sq : ℚ → ℚ) (ah : Aabb → Ray → Bool)
    (objects : List Object) (ray : Ray) (max_dist : ℚ) :
    List BVHTree → Bool
  | [] => false
  | BVHTree.node la l ra r :: rest =>
    occludedStack sq ah objects ray max_dist
      ((if ah ra ray then [r] else []) ++ (if ah la ray then [l] else []) ++ rest)
  | BVHTree.leaf i :: rest =>
    let o := objects.getD i defaultObject
    let blocked :=
      match o.intersect sq ray with
      | none => false
      | some d => d > 0 && d < max_dist && o.material.emittance.is_black
    if blocked then true else occludedStack sq ah objects ray max_dist rest
termination_by stack => stackWeight stack
decreasing_by
  all_goals simp [stackWeight, BVHTree.weight]
  all_goals split <;> split <;> simp [stackWeight, BVHTree.weight] <;> omega

/-- `Scene::is_occluded`. -/
def Scene.is_occluded (sq : ℚ → ℚ) (ah : Aabb → Ray → Bool) (s : Scene)
    (ray : Ray) (max_dist : ℚ) : Bool :=
  occludedStack sq ah s.objects ray max_dist [s.bvh]

/-- The leaf indexes the traversal visits (same AABB gates as the two
traversals above). -/
def visitedLeaves (ah : Aabb → Ray → Bool) (ray : Ray) :
    List BVHTree → List ℕ
  | [] => []
  | BVHTree.node la l ra r :: rest =>
    visitedLeaves ah ray
      ((if ah ra ray then [r] else []) ++ (if ah la ray then [l] else []) ++ rest)
  | BVHTree.leaf i :: rest => i :: visitedLeaves ah ray rest
termination_by stack => stackWeight stack
decreasing_by
  all_goals simp [stackWeight, BVHTree.weight]
  all_goals split <;> split <;> simp [stackWeight, BVHTree.weight] <;> omega

/-- `Canvas` fields relevant to `draw_pixel` (src/canvas.rs). -/
structure Canvas where
  width : ℕ
  height : ℕ

/-- `DrawPixelMessage` from src/canvas.rs. -/
structure DrawPixelMessage where
  x : ℕ
  y : ℕ
  s : Spectrum
deriving DecidableEq

/-- `Canvas::draw_pixel`: bounds check, then a single message on the pixel
channel; the boolean is the return value, the list collects the messages
sent. -/
def Canvas.draw_pixel (c : Canvas) (x y : ℕ) (s : Spectrum) :
    Bool × List DrawPixelMessage :=
  if x ≥ c.width ∨ y ≥ c.height then
    (false, [])
  else
    (true, [⟨x, y, s⟩])

/-- Oracle for the global `fastrand` generator: a tape of scalar draws
(`fastrand::f32` / `fastrand::f64`) and a tape of sampled unit directions
(standing for `Vector::random_sphere` / `Vector::random_hemisphere`, whose
trigonometric construction from two scalar draws is external to the claims). -/
structure Tape where
  coins : ℕ → ℚ
  vecs : ℕ → Vec3

/-- Cursor into the two tapes, threaded in state-passing style. -/
structure RState where
  c : ℕ
  v : ℕ
deriving DecidableEq

/-- Draw one scalar. -/
def Tape.drawCoin (t : Tape) (σ : RState) : ℚ × RState :=
  (t.coins σ.c, ⟨σ.c + 1, σ.v⟩)

/-- Draw one sampled direction. -/
def Tape.drawVec (t : Tape) (σ : RState) : Vec3 × RState :=
  (t.vecs σ.v, ⟨σ.c, σ.v + 1⟩)

/-- `RUSSIAN_ROULETTE_PROBABILITY` from src/raytracer.rs. -/
def RUSSIAN_ROULETTE_PROBABILITY : ℚ := 7 / 10

/-- The fields of `Config` read by src/raytracer.rs. -/
structure Config where
  screen_width : ℕ
  screen_height : ℕ
  fov : ℚ
  samples_per_pixel : ℕ
  light_samples : ℕ
  bounces : ℕ

/-- The fields of `RaytracerInner` the integrator reads, together with the
external functions (`f64::sqrt`, `f64::sin`, the crate's AABB slab test) and
the randomness oracle. -/
structure Raytracer where
  config : Config
  scene : Scene
  sq : ℚ → ℚ
  sinq : ℚ → ℚ
  ah : Aabb → Ray → Bool
  tape : Tape

/-- `RaytracerInner::screen_to_world` from src/raytracer.rs. -/
def Raytracer.screen_to_world (rt : Raytracer) (i j : ℕ) : Vec3 :=
  let w : ℚ := rt.config.screen_width
  let h : ℚ := rt.config.screen_height
  let aspect := w / h
  let z : ℚ := 17 / 10
  let iw := ((i : ℚ) + 1/2) / w
  let jh := ((j : ℚ) + 1/2) / h
  let half_fov := rt.config.fov * (1/2)
  let start := rt.sinq (-half_fov)
  let total := -2 * start
  let xi := (start + iw * total) * aspect
  let yi := -start - jh * total
  Vec3.normalized rt.sq ⟨xi, yi, -z⟩

/-- `RaytracerInner::zero_bounce_radiance`. -/
def zero_bounce_radiance (ri : RayIntersection) : Spectrum :=
  ri.object.material.emittance

/-- `cast_ray(ray, 0)` specialised: the emittance of the closest hit, black on
a miss (used by the direct-lighting loop, which always recurses with zero
bounces left). -/
def castRayZero (rt : Raytracer) (ray : Ray) : Spectrum :=
  match rt.scene.intersectRI rt.sq rt.ah ray with
  | some ri => zero_bounce_radiance ri
  | none => Spectrum.black

/-- Tape-threaded `Object::sample_bsdf`: the diffuse branch draws one sampled
direction, the glass branch draws one scalar when refraction is possible, the
specular branch draws nothing. -/
def Object.sample_bsdf_rt (rt : Raytracer) (o : Object) (wo normal : Vec3)
    (σ : RState) : BSDFSample × RState :=
  match o.material.bsdf with
  | BSDF.Diffuse =>
    let rv := rt.tape.drawVec σ
    (o.sample_bsdf rt.sq wo normal rv.1 0, rv.2)
  | BSDF.Specular =>
    (o.sample_bsdf rt.sq wo normal ⟨0, 0, 0⟩ 0, σ)
  | BSDF.Glass eta =>
    match refract rt.sq wo normal eta with
    | none => (o.sample_bsdf rt.sq wo normal ⟨0, 0, 0⟩ 0, σ)
    | some _ =>
      let gr := rt.tape.drawCoin σ
      (o.sample_bsdf rt.sq wo normal ⟨0, 0, 0⟩ gr.1, gr.2)

/-- One iteration of the inner loop of `one_bounce_radiance_importance`
(src/raytracer.rs): draw a light sample, cast the zero-bounce ray along it,
and add the gated contribution to the accumulator `color`.  The triangle
`sample_l` panic is modelled as an unchanged accumulator. -/
def one_bounce_sample (rt : Raytracer) (object : Object) (wo : Vec3)
    (intersection_point normal : Vec3) (light : Object) (σ : RState)
    (color : Spectrum) : Spectrum × RState :=
  let rv := rt.tape.drawVec σ
  match light.sample_l rt.sq intersection_point rv.1 with
  | none => (color, rv.2)
  | some sample =>
    let pdf := sample.pdf
    let wi := sample.wi
    let bounced_ray := Ray.new rt.sq intersection_point wi
    let other_emittance := castRayZero rt bounced_ray
    if !other_emittance.is_black then
      let reflected := object.bsdf wi wo
      let cos_theta := |wi.dot normal|
      (color + other_emittance * reflected * cos_theta * pdf, rv.2)
    else
      (color, rv.2)

/-- The `for _ in 0..num_light_samples` loop of
`one_bounce_radiance_importance`. -/
def one_bounce_samples (rt : Raytracer) (object : Object) (wo : Vec3)
    (intersection_point normal : Vec3) (light : Object) :
    ℕ → RState → Spectrum → Spectrum × RState
  | 0, σ, color => (color, σ)
  | n + 1, σ, color =>
    let step := one_bounce_sample rt object wo intersection_point normal light σ color
    one_bounce_samples rt object wo intersection_point normal light n step.2 step.1

/-- The `for light in self.scene.lights()` loop of
`one_bounce_radiance_importance`. -/
def one_bounce_lights (rt : Raytracer) (object : Object) (wo : Vec3)
    (intersection_point normal : Vec3) :
    List Object → RState → Spectrum → Spectrum × RState
  | [], σ, l => (l, σ)
  | light :: rest, σ, l =>
    let color := one_bounce_samples rt object wo intersection_point normal light
      rt.config.light_samples σ Spectrum.black
    one_bounce_lights rt object wo intersection_point normal rest color.2
      (l + color.1 * (1 / (rt.config.light_samples : ℚ)))

/-- `RaytracerInner::one_bounce_radiance_importance`. -/
def one_bounce_radiance_importance (rt : Raytracer) (ri : RayIntersection)
    (σ : RState) : Spectrum × RState :=
  let object := ri.object
  let intersection_point := ri.point
  let normal := object.surface_normal rt.sq intersection_point
  let res := one_bounce_lights rt object ri.ray.direction intersection_point normal
    rt.scene.lights σ Spectrum.black
  (res.1 + zero_bounce_radiance ri, res.2)

/-- `RaytracerInner::global_illumination`, with the recursive
`cast_ray(bounced_ray, bounces_left - 1)` call abstracted as `recurse`. -/
def global_illumination (rt : Raytracer)
    (recurse : Ray → RState → Spectrum × RState) (ri : RayIntersection)
    (σ : RState) : Spectrum × RState :=
  let object := ri.object
  let intersection_point := ri.point
  let normal := object.surface_normal rt.sq intersection_point
  let ray := ri.ray
  let lres := one_bounce_radiance_importance rt ri σ
  let flip := rt.tape.drawCoin lres.2
  if !(weighted_coin_flip flip.1 RUSSIAN_ROULETTE_PROBABILITY) then
    (lres.1, flip.2)
  else
    let wo := ray.direction
    let sres := object.sample_bsdf_rt rt wo normal flip.2
    let sample := sres.1
    let bounced_ray := Ray.new rt.sq intersection_point sample.wi
    let cres := recurse bounced_ray sres.2
    let color :=
      if !cres.1.is_black then
        cres.1 * sample.reflected * |sample.wi.dot normal| * sample.pdf
      else
        cres.1
    (lres.1 + color, cres.2)

/-- `RaytracerInner::cast_ray`, by recursion on `bounces_left`. -/
def cast_ray (rt : Raytracer) : ℕ → Ray → RState → Spectrum × RState
  | 0, ray, σ =>
    match rt.scene.intersectRI rt.sq rt.ah ray with
    | some ri => (zero_bounce_radiance ri, σ)
    | none => (Spectrum.black, σ)
  | 1, ray, σ =>
    match rt.scene.intersectRI rt.sq rt.ah ray with
    | some ri => one_bounce_radiance_importance rt ri σ
    | none => (Spectrum.black, σ)
  | n + 2, ray, σ =>
    match rt.scene.intersectRI rt.sq rt.ah ray with
    | some ri =>
      global_illumination rt (fun r σ2 => cast_ray rt (n + 1) r σ2) ri σ
    | none => (Spectrum.black, σ)

/-- The sample accumulation loop of `render_helper` (`color += cast_ray(...)`
repeated). -/
def castLoop (rt : Raytracer) (ray : Ray) :
    ℕ → RState → Spectrum → Spectrum × RState
  | 0, σ, color => (color, σ)
  | n + 1, σ, color =>
    let sres := cast_ray rt rt.config.bounces ray σ
    castLoop rt ray n sres.2 (color + sres.1)

/-- `RaytracerInner::render_helper` from src/raytracer.rs.  When
`samples_per_pixel > 1` the first two samples are taken (the source loop runs
`0..min(2, samples_per_pixel)`, which is `0..2` here) and the early
black-termination check happens after the second; otherwise a single sample is
returned. -/
def render_helper (rt : Raytracer) (i j : ℕ) (camera_pos : Vec3)
    (σ : RState) : Spectrum × RState :=
  let vector := rt.screen_to_world i j
  let ray := Ray.new rt.sq camera_pos vector
  if 1 < rt.config.samples_per_pixel then
    let s1 := cast_ray rt rt.config.bounces ray σ
    let s2 := cast_ray rt rt.config.bounces ray s1.2
    let color := Spectrum.black + s1.1 + s2.1
    if color.is_black then
      (Spectrum.black, s2.2)
    else
      let rest := castLoop rt ray (rt.config.samples_per_pixel - 2) s2.2 color
      (rest.1 * (1 / (rt.config.samples_per_pixel : ℚ)), rest.2)
  else
    cast_ray rt rt.config.bounces ray σ

/-! Spec-side definitions.  These follow the wording of the specification and
of the claims, for comparison with the source-translated definitions above. -/

/-- The Moller-Trumbore quantities `(b1, b2, t)` as the spec writes them:
`s1 = dir x e2`, `s2 = s x e1`, `inv = 1/(s1.e1)`, `b1 = (s1.s) inv`,
`b2 = (s2.dir) inv`, `t = (s2.e2) inv`. -/
def mt_barycentrics (tr : Triangle) (ray : Ray) : ℚ × ℚ × ℚ :=
  let e1 := tr.p2 - tr.p1
  let e2 := tr.p3 - tr.p1
  let s := ray.origin - tr.p1
  let s1 := ray.direction.cross e2
  let s2 := s.cross e1
  let inv := 1 / s1.dot e1
  (s1.dot s * inv, s2.dot ray.direction * inv, s2.dot e2 * inv)

/-- Triangle intersection exactly as the claim states it: hit iff
`0 <= b1, 0 <= b2, b1 <= 1, b2 <= 1, b1 + b2 <= 1 + EPS, t > EPS`, returning
that `t`. -/
def spec_triangle_hit (tr : Triangle) (ray : Ray) : Option ℚ :=
  let b := mt_barycentrics tr ray
  if 0 ≤ b.1 ∧ 0 ≤ b.2.1 ∧ b.1 ≤ 1 ∧ b.2.1 ≤ 1 ∧ b.1 + b.2.1 ≤ 1 + EPS ∧
      b.2.2 > EPS then
    some b.2.2
  else
    none

/-- Sphere intersection exactly as the claim states it: given the discriminant
test passes, return `min(t0,t1)` if nonnegative, else `t1`, missing iff both
roots are negative. -/
def spec_sphere_intersect (sq : ℚ → ℚ) (s : Sphere) (ray : Ray) : Option ℚ :=
  let l := s.center - ray.origin
  let adj := l.dot ray.direction
  let d2 := l.dot l - adj * adj
  let radius2 := s.radius * s.radius
  if d2 > radius2 then
    none
  else
    let thc := sq (radius2 - d2)
    let t0 := adj - thc
    let t1 := adj + thc
    if 0 ≤ min t0 t1 then some (min t0 t1)
    else if 0 ≤ t1 then some t1
    else none

/-- Brute-force any-hit as the shadow-query claims state it: some primitive
whose emittance is black intersects the ray at a distance strictly between
`lower` and `max_dist`. -/
def spec_any_blocker (sq : ℚ → ℚ) (objects : List Object) (ray : Ray)
    (lower max_dist : ℚ) : Bool :=
  (List.range objects.length).any fun i =>
    match (objects.getD i defaultObject).intersect sq ray with
    | some t => decide (lower < t) && decide (t < max_dist) &&
        (objects.getD i defaultObject).material.emittance.is_black
    | none => false

/-- Per-sample direct-lighting contribution as the claim states it: zero when
an any-hit query from `x` along `wi` finds a non-emissive primitive at
`EPS < t < d_l`, else the sampled light's emittance times the shaded object's
bsdf times the cosine times the pdf. -/
def claim_sample_contribution (sq : ℚ → ℚ) (objects : List Object)
    (x wi : Vec3) (pdf d_l : ℚ) (lightEmittance : Spectrum) (object : Object)
    (wo normal : Vec3) : Spectrum :=
  let shadow := Ray.new_prenormalized x wi
  if spec_any_blocker sq objects shadow EPS d_l then
    Spectrum.black
  else
    lightEmittance * object.bsdf wi wo * |wi.dot normal| * pdf

/-- Per-pixel estimator as the claim states it: the sum of exactly
`samples_per_pixel` sequential evaluations of `cast_ray(ray, bounces)`,
divided by `samples_per_pixel`. -/
def spec_pixel_estimate (rt : Raytracer) (i j : ℕ) (camera_pos : Vec3)
    (σ : RState) : Spectrum :=
  let vector := rt.screen_to_world i j
  let ray := Ray.new rt.sq camera_pos vector
  (castLoop rt ray rt.config.samples_per_pixel σ Spectrum.black).1 *
    (1 / (rt.config.samples_per_pixel : ℚ))

/-! Machinery relating the iterative BVH traversals to the list of candidate
hits in the visited leaves. -/

/-- The `(index, distance)` pairs of passing exact intersections in the leaves
a traversal visits, in visit order. -/
def candList (sq : ℚ → ℚ) (ah : Aabb → Ray → Bool) (objects : List Object)
    (ray : Ray) : List BVHTree → List (ℕ × ℚ)
  | [] => []
  | BVHTree.node la l ra r :: rest =>
    candList sq ah objects ray
      ((if ah ra ray then [r] else []) ++ (if ah la ray then [l] else []) ++ rest)
  | BVHTree.leaf i :: rest =>
    (match (objects.getD i defaultObject).intersect sq ray with
      | some d => [(i, d)]
      | none => []) ++ candList sq ah objects ray rest
termination_by stack => stackWeight stack
decreasing_by
  all_goals simp [stackWeight, BVHTree.weight]
  all_goals split <;> split <;> simp [stackWeight, BVHTree.weight] <;> omega

/-- The closest-hit update step of `Scene::intersect`
(`if d < min_dist { ... }`). -/
def closerStep (best : Option (ℕ × ℚ)) (p : ℕ × ℚ) : Option (ℕ × ℚ) :=
  match best with
  | none => some p
  | some q => if p.2 < q.2 then some p else some q

/-- The blocker test of `Scene::is_occluded` on a candidate pair. -/
def blockerTest (objects : List Object) (max_dist : ℚ) (p : ℕ × ℚ) : Bool :=
  decide (0 < p.2) && decide (p.2 < max_dist) &&
    ((objects.getD p.1 defaultObject).material.emittance.is_black)

/-! Concrete instances used by the closed theorems below. -/

/-- Square-root stub exact on the arguments taken in the runs that use it. -/
def sqOne : ℚ → ℚ := fun x => if x = 1 then 1 else 0

/-- Square-root stub for the inside-the-sphere run (`sqrt 4 = 2`). -/
def sqFour : ℚ → ℚ := fun x => if x = 4 then 2 else if x = 1 then 1 else 0

/-- Square-root stub for the two-light direct-lighting run. -/
def sqC3 : ℚ → ℚ :=
  fun x => if x = 1 then 1 else if x = 100 then 10 else if x = 121 then 11 else 0

/-- Square-root stub for the per-pixel estimator run. -/
def sqC6 : ℚ → ℚ := fun x => if x = 1 then 1 else if x = 289/100 then 17/10 else 0

/-- A dummy bounding box (the slab test used with it accepts everything). -/
def aabb0 : Aabb := ⟨⟨0, 0, 0⟩, ⟨0, 0, 0⟩⟩

/-- Always-true slab test. -/
def ahAll : Aabb → Ray → Bool := fun _ _ => true

/-- White diffuse, non-emissive. -/
def matDiffuseWhite : Material := Material.new BSDF.Diffuse Spectrum.white Spectrum.black

/-- White-emitting light material. -/
def matLightWhite : Material := Material.new BSDF.Diffuse Spectrum.black Spectrum.white

/-- Light material with emittance `(2,2,2)`. -/
def matLightDouble : Material :=
  Material.new BSDF.Diffuse Spectrum.black (Spectrum.new_f 2 2 2)

/-- Emittance small enough to count as black for `is_black` but nonzero. -/
def glowTint : Spectrum := Spectrum.new_f (EPS/3) (EPS/3) (EPS/3)

/-- Material carrying `glowTint` emittance. -/
def matFaintGlow : Material := Material.new BSDF.Diffuse Spectrum.black glowTint

/-- Unit triangle in the plane `z = 0` (built by `Triangle::new`). -/
def triC1 : Triangle := Triangle.new sqOne ⟨0, 0, 0⟩ ⟨1, 0, 0⟩ ⟨0, 1, 0⟩ matDiffuseWhite

/-- Ray aimed at barycentrics `(1/2 + EPS, 1/2 + EPS)` of `triC1`. -/
def rayC1 : Ray := Ray.new_prenormalized ⟨1/2 + EPS, 1/2 + EPS, 1⟩ ⟨0, 0, -1⟩

/-- Triangle in the plane `z = -1` covering the origin column. -/
def triA : Triangle := ⟨⟨-1, -1, -1⟩, ⟨3, -1, -1⟩, ⟨-1, 3, -1⟩, ⟨0, 0, 1⟩, matDiffuseWhite⟩

/-- Triangle in the plane `z = -2` covering the origin column. -/
def triB : Triangle := ⟨⟨-1, -1, -2⟩, ⟨3, -1, -2⟩, ⟨-1, 3, -2⟩, ⟨0, 0, 1⟩, matDiffuseWhite⟩

/-- Two-triangle scene with a two-leaf BVH. -/
def sceneC2 : Scene :=
  ⟨[Object.Triangle triA, Object.Triangle triB],
    BVHTree.node aabb0 (BVHTree.leaf 0) aabb0 (BVHTree.leaf 1), []⟩

/-- Ray down the z axis from the origin. -/
def rayC2 : Ray := Ray.new_prenormalized ⟨0, 0, 0⟩ ⟨0, 0, -1⟩

/-- Shaded unit triangle for the direct-lighting run. -/
def triC3 : Triangle := ⟨⟨0, 0, 0⟩, ⟨1, 0, 0⟩, ⟨0, 1, 0⟩, ⟨0, 0, 1⟩, matDiffuseWhite⟩

/-- The shaded object of the direct-lighting run. -/
def objC3 : Object := Object.Triangle triC3

/-- Sampled light: white emitter at `(0,0,-10)`, radius 1. -/
def lightFar : Object := Object.Sphere (Sphere.new ⟨0, 0, -10⟩ 1 matLightWhite)

/-- Intervening brighter light at `(0,0,-5)`, radius 1. -/
def lightNear : Object := Object.Sphere (Sphere.new ⟨0, 0, -5⟩ 1 matLightDouble)

/-- Scene with the shaded triangle and the two lights. -/
def sceneC3 : Scene :=
  ⟨[objC3, lightFar, lightNear],
    BVHTree.node aabb0 (BVHTree.node aabb0 (BVHTree.leaf 0) aabb0 (BVHTree.leaf 1))
      aabb0 (BVHTree.leaf 2), [1, 2]⟩

/-- Raytracer context for the direct-lighting run; the vector tape yields the
light-sampling draw `(0,0,-1)` (the far point of the sampled light). -/
def rtC3 : Raytracer :=
  ⟨⟨1, 1, 0, 1, 1, 1⟩, sceneC3, sqC3, fun _ => 0, ahAll,
    ⟨fun _ => 0, fun _ => ⟨0, 0, -1⟩⟩⟩

/-- Incoming direction at the shaded point of the direct-lighting run. -/
def woC3 : Vec3 := ⟨0, 0, -1⟩

/-- Triangle in the plane `z = 0` for the Russian-roulette run. -/
def triC5 : Triangle := ⟨⟨-1, -1, 0⟩, ⟨3, -1, 0⟩, ⟨-1, 3, 0⟩, ⟨0, 0, 1⟩, matDiffuseWhite⟩

/-- Faintly glowing sphere above the triangle. -/
def sphGlow : Sphere := Sphere.new ⟨0, 0, 10⟩ 1 matFaintGlow

/-- Scene for the Russian-roulette and per-pixel runs, built by `Scene::new`
(its light scan classifies the faint glow as black, so there are no lights). -/
def sceneC5 : Scene :=
  Scene.new (fun _ => BVHTree.node aabb0 (BVHTree.leaf 0) aabb0 (BVHTree.leaf 1))
    [triC5] [sphGlow]

/-- Raytracer context for the Russian-roulette run: every coin draw is `1/2`
(the roulette continues), every sampled direction is `(0,0,1)`. -/
def rtC5 : Raytracer :=
  ⟨⟨1, 1, 0, 1, 1, 2⟩, sceneC5, sqOne, fun _ => 0, ahAll,
    ⟨fun _ => 1/2, fun _ => ⟨0, 0, 1⟩⟩⟩

/-- The intersection handed to `global_illumination`: the primary ray from
`(0,0,5)` straight down the z axis hitting the triangle at distance 5. -/
def riC5 : RayIntersection :=
  ⟨5, Object.Triangle triC5, Ray.new_prenormalized ⟨0, 0, 5⟩ ⟨0, 0, -1⟩⟩

/-- The bounced ray `global_illumination` builds in that run. -/
def bouncedC5 : Ray := Ray.new_prenormalized ⟨0, 0, EPS⟩ ⟨0, 0, 1⟩

/-- Raytracer context for the per-pixel estimator run: 3 samples per pixel,
2 bounces; the first two coin draws stop the roulette, the third continues. -/
def rtC6 : Raytracer :=
  ⟨⟨1, 1, 2, 3, 1, 2⟩, sceneC5, sqC6,
    (fun x => if x = -1 then -(1/2) else 0), ahAll,
    ⟨fun k => if k = 2 then 1/2 else 9/10, fun _ => ⟨0, 0, 1⟩⟩⟩

/-- Camera position of the per-pixel estimator run. -/
def camC6 : Vec3 := ⟨0, 0, 5⟩

/-- Non-emissive sphere positioned so that the exit root is `EPS/2`. -/
def sphC8 : Sphere := Sphere.new ⟨0, 0, -1 + EPS/2⟩ 1 matDiffuseWhite

/-- One-sphere scene for the shadow-query run. -/
def sceneC8 : Scene := ⟨[Object.Sphere sphC8], BVHTree.leaf 0, []⟩

/-- Ray up the z axis from the origin. -/
def rayC8 : Ray := Ray.new_prenormalized ⟨0, 0, 0⟩ ⟨0, 0, 1⟩

/-- Sphere whose near root is `EPS/2`: between `0` and `EPS`. -/
def sphC4 : Sphere := Sphere.new ⟨0, 0, 1 + EPS/2⟩ 1 matDiffuseWhite

/-- Ray up the z axis for the sphere boundary run. -/
def rayC4 : Ray := Ray.new_prenormalized ⟨0, 0, 0⟩ ⟨0, 0, 1⟩

/-- Radius-2 sphere centred at the origin (ray origin inside). -/
def sphC4w : Sphere := Sphere.new ⟨0, 0, 0⟩ 2 matDiffuseWhite

/-- A specular mirror object. -/
def objC7 : Object :=
  Object.Sphere (Sphere.new ⟨0, 0, 0⟩ 1 (Material.new BSDF.Specular Spectrum.white Spectrum.black))

/-! Unfolding lemmas for the arithmetic instances, used to evaluate the
embedding on concrete inputs. -/

theorem Vec3.add_coords (a b : Vec3) : a + b = ⟨a.x + b.x, a.y + b.y, a.z + b.z⟩ := rfl

theorem Vec3.sub_def (a b : Vec3) : a - b = ⟨a.x - b.x, a.y - b.y, a.z - b.z⟩ := rfl

theorem Vec3.neg_def (a : Vec3) : -a = ⟨-a.x, -a.y, -a.z⟩ := rfl

theorem Vec3.smul_coords (a : Vec3) (q : ℚ) : a * q = ⟨a.x * q, a.y * q, a.z * q⟩ := rfl

theorem Spectrum.add_def (a b : Spectrum) : a + b = ⟨a.r + b.r, a.g + b.g, a.b + b.b⟩ := rfl

theorem Spectrum.mul_def (a b : Spectrum) : a * b = ⟨a.r * b.r, a.g * b.g, a.b * b.b⟩ := rfl

theorem Spectrum.smul_def (a : Spectrum) (q : ℚ) : a * q = ⟨a.r * q, a.g * q, a.b * q⟩ := rfl

theorem Spectrum.black_add (s : Spectrum) : Spectrum.black + s = s := by
  cases s
  simp [Spectrum.add_def, Spectrum.black, Spectrum.new_f]

theorem Spectrum.add_black (s : Spectrum) : s + Spectrum.black = s := by
  cases s
  simp [Spectrum.add_def, Spectrum.black, Spectrum.new_f]

theorem Spectrum.smul_one (s : Spectrum) : s * (1 : ℚ) = s := by
  cases s
  simp [Spectrum.smul_def]

/-! Lemmas relating the iterative traversals to the candidate lists of the
visited leaves, and the closest-hit fold to its minimising property. -/

theorem intersectStack_eq_foldl (sq : ℚ → ℚ) (ah : Aabb → Ray → Bool)
    (objects : List Object) (ray : Ray) :
    ∀ (stack : List BVHTree) (best : Option (ℕ × ℚ)),
      intersectStack sq ah objects ray stack best =
        (candList sq ah objects ray stack).foldl closerStep best
  | [], best => by
    rw [intersectStack, candList]
    rfl
  | BVHTree.node la l ra r :: rest, best => by
    rw [intersectStack, candList]
    exact intersectStack_eq_foldl sq ah objects ray _ best
  | BVHTree.leaf i :: rest, best => by
    rw [intersectStack, candList, List.foldl_append,
      intersectStack_eq_foldl sq ah objects ray rest]
    congr 1
    cases h : (objects.getD i defaultObject).intersect sq ray with
    | none => simp [h, closerStep]
    | some d =>
      cases best with
      | none => simp [h, closerStep]
      | some q => simp [h, closerStep]
termination_by stack _ => stackWeight stack
decreasing_by
  all_goals simp [stackWeight, BVHTree.weight]
  all_goals split <;> split <;> simp [stackWeight, BVHTree.weight] <;> omega

theorem occludedStack_eq_any (sq : ℚ → ℚ) (ah : Aabb → Ray → Bool)
    (objects : List Object) (ray : Ray) (max_dist : ℚ) :
    ∀ stack : List BVHTree,
      occludedStack sq ah objects ray max_dist stack =
        (candList sq ah objects ray stack).any (blockerTest objects max_dist)
  | [] => by
    rw [occludedStack, candList]
    rfl
  | BVHTree.node la l ra r :: rest => by
    rw [occludedStack, candList]
    exact occludedStack_eq_any sq ah objects ray max_dist _
  | BVHTree.leaf i :: rest => by
    rw [occludedStack, candList, List.any_append,
      occludedStack_eq_any sq ah objects ray max_dist rest]
    cases h : (objects.getD i defaultObject).intersect sq ray with
    | none => simp [h, blockerTest]
    | some d =>
      simp only [h, List.any_cons, List.any_nil, blockerTest, Bool.or_false]
      by_cases h1 : (0 : ℚ) < d <;> by_cases h2 : d < max_dist <;>
        by_cases h3 : ((objects.getD i defaultObject).material.emittance.is_black = true) <;>
        simp [h1, h2, h3]
termination_by stack => stackWeight stack
decreasing_by
  all_goals simp [stackWeight, BVHTree.weight]
  all_goals split <;> split <;> simp [stackWeight, BVHTree.weight] <;> omega

theorem mem_candList (sq : ℚ → ℚ) (ah : Aabb → Ray → Bool)
    (objects : List Object) (ray : Ray) :
    ∀ (stack : List BVHTree) (p : ℕ × ℚ),
      p ∈ candList sq ah objects ray stack ↔
        p.1 ∈ visitedLeaves ah ray stack ∧
          (objects.getD p.1 defaultObject).intersect sq ray = some p.2
  | [], p => by
    rw [candList, visitedLeaves]
    simp
  | BVHTree.node la l ra r :: rest, p => by
    rw [candList, visitedLeaves]
    exact mem_candList sq ah objects ray _ p
  | BVHTree.leaf i :: rest, p => by
    obtain ⟨p1, p2⟩ := p
    rw [candList, visitedLeaves, List.mem_append,
      mem_candList sq ah objects ray rest ⟨p1, p2⟩, List.mem_cons]
    cases h : (objects.getD i defaultObject).intersect sq ray with
    | none =>
      simp only [List.not_mem_nil, false_or]
      constructor
      · rintro ⟨hv, hint⟩
        exact ⟨Or.inr hv, hint⟩
      · rintro ⟨hv | hv, hint⟩
        · rw [hv, h] at hint
          simp at hint
        · exact ⟨hv, hint⟩
    | some d =>
      simp only [List.mem_singleton, Prod.mk.injEq]
      constructor
      · rintro (⟨hp1, hp2⟩ | ⟨hv, hint⟩)
        · subst hp1
          subst hp2
          exact ⟨Or.inl rfl, h⟩
        · exact ⟨Or.inr hv, hint⟩
      · rintro ⟨hv | hv, hint⟩
        · subst hv
          rw [h] at hint
          exact Or.inl ⟨rfl, (Option.some.inj hint).symm⟩
        · exact Or.inr ⟨hv, hint⟩
termination_by stack _ => stackWeight stack
decreasing_by
  all_goals simp [stackWeight, BVHTree.weight]
  all_goals split <;> split <;> simp [stackWeight, BVHTree.weight] <;> omega

theorem closerStep_some (b : Option (ℕ × ℚ)) (q : ℕ × ℚ) :
    ∃ r, closerStep b q = some r ∧ (r = q ∨ b = some r) ∧ r.2 ≤ q.2 ∧
      (∀ t, b = some t → r.2 ≤ t.2) := by
  cases b with
  | none => exact ⟨q, rfl, Or.inl rfl, le_refl _, by intro t ht; cases ht⟩
  | some t =>
    by_cases hq : q.2 < t.2
    · refine ⟨q, by simp [closerStep, hq], Or.inl rfl, le_refl _, ?_⟩
      intro s hs
      cases hs
      exact le_of_lt hq
    · refine ⟨t, by simp [closerStep, hq], Or.inr rfl, le_of_not_lt hq, ?_⟩
      intro s hs
      cases hs
      exact le_refl _

theorem foldl_closerStep_eq_none :
    ∀ (L : List (ℕ × ℚ)) (b : Option (ℕ × ℚ)),
      L.foldl closerStep b = none ↔ b = none ∧ L = []
  | [], b => by simp
  | q :: L, b => by
    rw [List.foldl_cons, foldl_closerStep_eq_none L (closerStep b q)]
    obtain ⟨r, hr, -⟩ := closerStep_some b q
    simp [hr]

theorem foldl_closerStep_min :
    ∀ (L : List (ℕ × ℚ)) (b : Option (ℕ × ℚ)) (p : ℕ × ℚ),
      L.foldl closerStep b = some p →
        (p ∈ L ∨ b = some p) ∧ (∀ q ∈ L, p.2 ≤ q.2) ∧
          (∀ r, b = some r → p.2 ≤ r.2)
  | [], b, p => by
    intro h
    rw [List.foldl_nil] at h
    refine ⟨Or.inr h, by simp, ?_⟩
    intro r hr
    rw [h] at hr
    cases hr
    exact le_refl _
  | q :: L, b, p => by
    intro h
    rw [List.foldl_cons] at h
    obtain ⟨ih1, ih2, ih3⟩ := foldl_closerStep_min L (closerStep b q) p h
    obtain ⟨r, hr, hr1, hr2, hr3⟩ := closerStep_some b q
    have hpr : p.2 ≤ r.2 := ih3 r hr
    have hpq : p.2 ≤ q.2 := le_trans hpr hr2
    refine ⟨?_, ?_, ?_⟩
    · rcases ih1 with hp | hp
      · exact Or.inl (List.mem_cons_of_mem _ hp)
      · rw [hr] at hp
        have hrp : r = p := Option.some.inj hp
        subst hrp
        rcases hr1 with h1 | h1
        · exact Or.inl (by rw [h1]; exact List.mem_cons_self _ _)
        · exact Or.inr h1
    · intro s hs
      rcases List.mem_cons.mp hs with hs | hs
      · rw [hs]; exact hpq
      · exact ih2 s hs
    · intro s hs
      exact le_trans hpr (hr3 s hs)



/-- Claim C1 (code_bug): at a point with barycentrics `(1/2 + EPS, 1/2 + EPS)`,
whose sum is `1 + 2 EPS > 1 + EPS`, the claimed Moller-Trumbore acceptance
reports a miss, but `Triangle::intersect` reports a hit at `t = 1`: the
source's second rejection re-tests `u` instead of bounding `u + v`. -/
theorem c1_triangle_accepts_beyond_edge :
    Triangle.intersect triC1 rayC1 = some 1 ∧
    (mt_barycentrics triC1 rayC1).1 + (mt_barycentrics triC1 rayC1).2.1 = 1 + 2 * EPS ∧
    spec_triangle_hit triC1 rayC1 = none := by
  refine ⟨?_, ?_, ?_⟩
  · norm_num [Triangle.intersect, triC1, rayC1, Triangle.new, Ray.new_prenormalized,
      Vec3.cross, Vec3.dot, Vec3.sub_def, Vec3.normalized, Vec3.norm, Vec3.smul_coords,
      sqOne, EPS, matDiffuseWhite]
  · norm_num [mt_barycentrics, triC1, rayC1, Triangle.new, Ray.new_prenormalized,
      Vec3.cross, Vec3.dot, Vec3.sub_def, Vec3.normalized, Vec3.norm, Vec3.smul_coords,
      sqOne, EPS, matDiffuseWhite]
  · norm_num [spec_triangle_hit, mt_barycentrics, triC1, rayC1, Triangle.new,
      Ray.new_prenormalized, Vec3.cross, Vec3.dot, Vec3.sub_def, Vec3.normalized,
      Vec3.norm, Vec3.smul_coords, sqOne, EPS, matDiffuseWhite]



/-- Claim C4 counterexample: for a sphere whose near root is `t0 = EPS/2`
(nonnegative), the claim prescribes returning `min(t0,t1) = EPS/2`, but
`Sphere::intersect` rejects roots below `EPS` and returns `t1 = 2 + EPS/2`. -/
theorem c4_sphere_near_root_counterexample :
    Sphere.intersect sqOne sphC4 rayC4 = some (2 + EPS/2) ∧
    spec_sphere_intersect sqOne sphC4 rayC4 = some (EPS/2) ∧
    (2 + EPS/2 : ℚ) ≠ EPS/2 := by
  refine ⟨?_, ?_, by norm_num [EPS]⟩
  · norm_num [Sphere.intersect, sphC4, rayC4, Sphere.new, Ray.new_prenormalized,
      Vec3.dot, Vec3.sub_def, sqOne, EPS]
  · norm_num [spec_sphere_intersect, sphC4, rayC4, Sphere.new, Ray.new_prenormalized,
      Vec3.dot, Vec3.sub_def, sqOne, EPS]

/-- Claim C4 amended: when the discriminant test passes and the square root is
nonnegative, `Sphere::intersect` returns `min(t0,t1) = t0` when it is at least
`EPS` (not merely nonnegative, as claimed), otherwise `t1` when that is
nonnegative; it misses iff both roots are negative; and when the ray origin is
strictly inside the sphere the returned distance is the unique positive root
`t1`. -/
theorem sphere_intersect_amended (sq : ℚ → ℚ) (s : Sphere) (ray : Ray)
    (adj d2 radius2 thc t0 t1 : ℚ)
    (hadj : adj = (s.center - ray.origin).dot ray.direction)
    (hd2 : d2 = (s.center - ray.origin).dot (s.center - ray.origin) - adj * adj)
    (hr2 : radius2 = s.radius * s.radius)
    (hthc : thc = sq (radius2 - d2))
    (ht0 : t0 = adj - thc)
    (ht1 : t1 = adj + thc)
    (hdisc : ¬(d2 > radius2)) (hpos : 0 ≤ thc) :
    (s.intersect sq ray =
      if EPS ≤ t0 then some t0 else if 0 ≤ t1 then some t1 else none) ∧
    (s.intersect sq ray = none ↔ t0 < 0 ∧ t1 < 0) ∧
    ((s.center - ray.origin).dot (s.center - ray.origin) < radius2 →
      thc * thc = radius2 - d2 →
      t0 < 0 ∧ 0 < t1 ∧ s.intersect sq ray = some t1) := by
  have ht01 : t0 ≤ t1 := by rw [ht0, ht1]; linarith
  have hEpos : (0 : ℚ) < EPS := by norm_num [EPS]
  have hcode : s.intersect sq ray =
      if EPS ≤ t0 then some t0 else if 0 ≤ t1 then some t1 else none := by
    simp only [Sphere.intersect]
    rw [← hadj, ← hr2, ← hd2, ← hthc, ← ht0, ← ht1]
    rw [if_neg hdisc, if_neg (not_lt.mpr ht01), zero_add]
    by_cases h0 : t0 < EPS
    · rw [if_pos h0, if_neg (not_le.mpr h0)]
      by_cases h1 : t1 < 0
      · rw [if_pos h1, if_neg (not_le.mpr h1)]
      · rw [if_neg h1, if_pos (not_lt.mp h1)]
    · rw [if_neg h0, if_pos (not_lt.mp h0)]
  refine ⟨hcode, ?_, ?_⟩
  · rw [hcode]
    constructor
    · intro hnone
      by_cases hE : EPS ≤ t0
      · rw [if_pos hE] at hnone
        cases hnone
      · rw [if_neg hE] at hnone
        by_cases h1 : 0 ≤ t1
        · rw [if_pos h1] at hnone
          cases hnone
        · exact ⟨lt_of_le_of_lt ht01 (not_le.mp h1), not_le.mp h1⟩
    · rintro ⟨h0, h1⟩
      rw [if_neg (not_le.mpr (lt_trans h0 hEpos)), if_neg (not_le.mpr h1)]
  · intro hin hsq
    have hexp : t0 * t1 = (s.center - ray.origin).dot (s.center - ray.origin) - radius2 := by
      rw [ht0, ht1]
      have h5 : (adj - thc) * (adj + thc) = adj * adj - thc * thc := by ring
      rw [h5, hsq, hd2]
      ring
    have hprod : t0 * t1 < 0 := by rw [hexp]; linarith
    have h0 : t0 < 0 := by nlinarith [hprod, ht01]
    have h1 : 0 < t1 := by nlinarith [hprod, ht01]
    refine ⟨h0, h1, ?_⟩
    rw [hcode, if_neg (not_le.mpr (lt_trans h0 hEpos)), if_pos (le_of_lt h1)]

/-- Witness for the amended sphere claim: ray origin at the centre of a
radius-2 sphere; the code returns the unique positive root `t1 = 2`. -/
theorem sphere_intersect_amended_witness :
    Sphere.intersect sqFour sphC4w rayC4 = some 2 := by
  have h := sphere_intersect_amended sqFour sphC4w rayC4 0 0 4 2 (-2) 2
    (by norm_num [sphC4w, rayC4, Sphere.new, Ray.new_prenormalized, Vec3.dot, Vec3.sub_def])
    (by norm_num [sphC4w, rayC4, Sphere.new, Ray.new_prenormalized, Vec3.dot, Vec3.sub_def])
    (by norm_num [sphC4w, Sphere.new])
    (by norm_num [sqFour])
    (by norm_num)
    (by norm_num)
    (by norm_num)
    (by norm_num)
  exact (h.2.2 (by norm_num [sphC4w, rayC4, Sphere.new, Ray.new_prenormalized,
    Vec3.dot, Vec3.sub_def]) (by norm_num)).2.2



/-- Claim C7: for a specular material, a unit normal and `wo` not orthogonal to
it, `sample_bsdf` mirrors `wo`, has unit pdf, divides the reflectance by the
cosine, and the integrator product `reflected * |wi.n| * pdf` recovers the
reflectance exactly. -/
theorem sample_bsdf_specular_spec (sq : ℚ → ℚ) (o : Object)
    (reflectance emittance : Spectrum)
    (hmat : o.material = Material.new BSDF.Specular reflectance emittance)
    (wo n rv : Vec3) (gr : ℚ) (hn : n.dot n = 1) (hwo : wo.dot n ≠ 0) :
    (o.sample_bsdf sq wo n rv gr).wi = wo - (n * (2 : ℚ)) * wo.dot n ∧
    (o.sample_bsdf sq wo n rv gr).pdf = 1 ∧
    (o.sample_bsdf sq wo n rv gr).reflected =
      reflectance * (1 / |(o.sample_bsdf sq wo n rv gr).wi.dot n|) ∧
    (o.sample_bsdf sq wo n rv gr).reflected *
      |(o.sample_bsdf sq wo n rv gr).wi.dot n| *
      (o.sample_bsdf sq wo n rv gr).pdf = reflectance := by
  have hsmp : o.sample_bsdf sq wo n rv gr =
      ⟨reflect wo n, 1, reflectance * (1 / |(reflect wo n).dot n|)⟩ := by
    simp only [Object.sample_bsdf, hmat, Material.new]
  have hdot : (reflect wo n).dot n = -(wo.dot n) := by
    obtain ⟨ax, ay, az⟩ := wo
    obtain ⟨nx, ny, nz⟩ := n
    simp only [Vec3.dot] at hn ⊢
    simp only [reflect, Vec3.sub_def, Vec3.smul_coords, Vec3.dot]
    linear_combination (-2 * (ax * nx + ay * ny + az * nz)) * hn
  have habs : |(reflect wo n).dot n| ≠ 0 := by
    rw [hdot]
    simpa using hwo
  rw [hsmp]
  refine ⟨rfl, rfl, rfl, ?_⟩
  obtain ⟨rr, rg, rb⟩ := reflectance
  simp only [Spectrum.smul_def, Spectrum.smul_one, Spectrum.mk.injEq]
  refine ⟨?_, ?_, ?_⟩ <;> (field_simp)

/-- Witness for the specular claim at `n = (0,0,1)`, `wo = (1,0,-1)`. -/
theorem sample_bsdf_specular_spec_witness :
    (objC7.sample_bsdf sqOne ⟨1, 0, -1⟩ ⟨0, 0, 1⟩ ⟨0, 0, 0⟩ 0).wi = ⟨1, 0, 1⟩ ∧
    (objC7.sample_bsdf sqOne ⟨1, 0, -1⟩ ⟨0, 0, 1⟩ ⟨0, 0, 0⟩ 0).reflected *
      |(objC7.sample_bsdf sqOne ⟨1, 0, -1⟩ ⟨0, 0, 1⟩ ⟨0, 0, 0⟩ 0).wi.dot ⟨0, 0, 1⟩| *
      (objC7.sample_bsdf sqOne ⟨1, 0, -1⟩ ⟨0, 0, 1⟩ ⟨0, 0, 0⟩ 0).pdf = Spectrum.white := by
  have h := sample_bsdf_specular_spec sqOne objC7 Spectrum.white Spectrum.black
    (by norm_num [objC7, Object.material, Sphere.new, Material.new])
    ⟨1, 0, -1⟩ ⟨0, 0, 1⟩ ⟨0, 0, 0⟩ 0
    (by norm_num [Vec3.dot])
    (by norm_num [Vec3.dot])
  refine ⟨?_, h.2.2.2⟩
  rw [h.1]
  norm_num [Vec3.sub_def, Vec3.smul_coords, Vec3.dot]

/-- Claim C9: an index is in `light_indexes` of a scene built by `Scene::new`
iff it indexes a primitive of the scene whose material emittance is not black;
the embedding is pure, so the scene is unchanged after construction. -/
theorem scene_new_light_indexes (build : List Object → BVHTree)
    (triangles : List Triangle) (spheres : List Sphere) (i : ℕ) :
    i ∈ (Scene.new build triangles spheres).light_indexes ↔
      i < (Scene.new build triangles spheres).objects.length ∧
      ¬(((Scene.new build triangles spheres).objects.getD i
          defaultObject).material.emittance.is_black = true) := by
  simp [Scene.new, List.mem_filter, List.mem_range]

/-- Claim C10: `Canvas::draw_pixel` returns false and sends nothing when the
coordinates are out of range, and otherwise sends exactly one
`DrawPixelMessage` carrying `(x, y, s)` and returns true. -/
theorem canvas_draw_pixel_spec (c : Canvas) (x y : ℕ) (s : Spectrum) :
    ((x ≥ c.width ∨ y ≥ c.height) → c.draw_pixel x y s = (false, [])) ∧
    ((x < c.width ∧ y < c.height) → c.draw_pixel x y s = (true, [⟨x, y, s⟩])) ∧
    ((c.draw_pixel x y s).2.length = if (c.draw_pixel x y s).1 then 1 else 0) := by
  by_cases h : x ≥ c.width ∨ y ≥ c.height
  · refine ⟨fun _ => by rw [Canvas.draw_pixel, if_pos h], ?_, ?_⟩
    · rintro ⟨h1, h2⟩
      rcases h with h | h
      · exact absurd h1 (not_lt.mpr h)
      · exact absurd h2 (not_lt.mpr h)
    · rw [Canvas.draw_pixel, if_pos h]
      rfl
  · refine ⟨fun hc => absurd hc h, fun _ => by rw [Canvas.draw_pixel, if_neg h], ?_⟩
    rw [Canvas.draw_pixel, if_neg h]
    rfl

/-- Witness for the draw-pixel claim on a 2 by 2 canvas: an in-range write
sends one message and returns true; an out-of-range write sends nothing. -/
theorem canvas_draw_pixel_spec_witness :
    Canvas.draw_pixel ⟨2, 2⟩ 1 1 Spectrum.white = (true, [⟨1, 1, Spectrum.white⟩]) ∧
    Canvas.draw_pixel ⟨2, 2⟩ 2 1 Spectrum.white = (false, []) := by
  refine ⟨(canvas_draw_pixel_spec ⟨2, 2⟩ 1 1 Spectrum.white).2.1 (by norm_num), ?_⟩
  exact (canvas_draw_pixel_spec ⟨2, 2⟩ 2 1 Spectrum.white).1 (by norm_num)




/-- Brute-force characterisation of the iterative closest-hit traversal under
the hypotheses modelling the external BVH build guarantee. -/
theorem sceneIntersect_brute_spec (sq : ℚ → ℚ) (ah : Aabb → Ray → Bool)
    (S : Scene) (ray : Ray)
    (hv : ∀ i ∈ visitedLeaves ah ray [S.bvh], i < S.objects.length)
    (hcov : ∀ i, i < S.objects.length →
      ((S.objects.getD i defaultObject).intersect sq ray).isSome →
      i ∈ visitedLeaves ah ray [S.bvh]) :
    (S.intersect sq ah ray = none →
      ∀ i, i < S.objects.length →
        (S.objects.getD i defaultObject).intersect sq ray = none) ∧
    (∀ j d, S.intersect sq ah ray = some (j, d) →
      j < S.objects.length ∧
      (S.objects.getD j defaultObject).intersect sq ray = some d ∧
      ∀ i, i < S.objects.length → ∀ e,
        (S.objects.getD i defaultObject).intersect sq ray = some e → d ≤ e) ∧
    ((∃ i, i < S.objects.length ∧
        ((S.objects.getD i defaultObject).intersect sq ray).isSome) →
      (S.intersect sq ah ray).isSome) := by
  have hfold : S.intersect sq ah ray =
      (candList sq ah S.objects ray [S.bvh]).foldl closerStep none := by
    rw [Scene.intersect]
    exact intersectStack_eq_foldl sq ah S.objects ray [S.bvh] none
  refine ⟨?_, ?_, ?_⟩
  · intro h0 i hi
    cases he : (S.objects.getD i defaultObject).intersect sq ray with
    | none => rfl
    | some e =>
      exfalso
      have hmem : (i, e) ∈ candList sq ah S.objects ray [S.bvh] :=
        (mem_candList sq ah S.objects ray [S.bvh] (i, e)).mpr
          ⟨hcov i hi (by rw [he]; rfl), he⟩
      rw [hfold] at h0
      obtain ⟨-, hnil⟩ := (foldl_closerStep_eq_none _ none).mp h0
      rw [hnil] at hmem
      exact List.not_mem_nil _ hmem
  · intro j d hjd
    rw [hfold] at hjd
    obtain ⟨h1, h2, -⟩ := foldl_closerStep_min _ none (j, d) hjd
    rcases h1 with h1 | h1
    swap
    · cases h1
    obtain ⟨hvis, hint⟩ := (mem_candList sq ah S.objects ray [S.bvh] (j, d)).mp h1
    refine ⟨hv j hvis, hint, ?_⟩
    intro i hi e he
    have hmem : (i, e) ∈ candList sq ah S.objects ray [S.bvh] :=
      (mem_candList sq ah S.objects ray [S.bvh] (i, e)).mpr
        ⟨hcov i hi (by rw [he]; rfl), he⟩
    exact h2 (i, e) hmem
  · rintro ⟨i, hi, hsome⟩
    cases hres : S.intersect sq ah ray with
    | some p => rfl
    | none =>
      exfalso
      rw [hfold] at hres
      obtain ⟨-, hnil⟩ := (foldl_closerStep_eq_none _ none).mp hres
      obtain ⟨e, he⟩ := Option.isSome_iff_exists.mp hsome
      have hmem : (i, e) ∈ candList sq ah S.objects ray [S.bvh] :=
        (mem_candList sq ah S.objects ray [S.bvh] (i, e)).mpr ⟨hcov i hi hsome, he⟩
      rw [hnil] at hmem
      exact List.not_mem_nil _ hmem

/-- Claim C2: with the external BVH build modelled by its guarantee (every
leaf index is in range, and every primitive whose exact test passes lies in a
leaf the traversal visits), the iterative closest-hit `Scene::intersect`
agrees with the brute-force closest hit: it returns no hit iff no exact test
passes, and otherwise returns a primitive whose exact test passes at the
returned distance such that no primitive in the scene has a smaller passing
distance. -/
theorem scene_intersect_closest (sq : ℚ → ℚ) (ah : Aabb → Ray → Bool)
    (S : Scene) (ray : Ray)
    (hv : ∀ i ∈ visitedLeaves ah ray [S.bvh], i < S.objects.length)
    (hcov : ∀ i, i < S.objects.length →
      ((S.objects.getD i defaultObject).intersect sq ray).isSome →
      i ∈ visitedLeaves ah ray [S.bvh]) :
    (S.intersect sq ah ray = none →
      ∀ i, i < S.objects.length →
        (S.objects.getD i defaultObject).intersect sq ray = none) ∧
    (∀ j d, S.intersect sq ah ray = some (j, d) →
      j < S.objects.length ∧
      (S.objects.getD j defaultObject).intersect sq ray = some d ∧
      ∀ i, i < S.objects.length → ∀ e,
        (S.objects.getD i defaultObject).intersect sq ray = some e → d ≤ e) ∧
    ((∃ i, i < S.objects.length ∧
        ((S.objects.getD i defaultObject).intersect sq ray).isSome) →
      (S.intersect sq ah ray).isSome) :=
  sceneIntersect_brute_spec sq ah S ray hv hcov

/-- Witness for the closest-hit claim on a two-triangle scene: the BVH
traversal returns the nearer triangle at distance 1 and that distance is
minimal among all exact intersections. -/
theorem scene_intersect_closest_witness :
    sceneC2.intersect sqOne ahAll rayC2 = some (0, 1) ∧
    Object.intersect sqOne (sceneC2.objects.getD 0 defaultObject) rayC2 = some 1 ∧
    ∀ i, i < sceneC2.objects.length → ∀ e,
      Object.intersect sqOne (sceneC2.objects.getD i defaultObject) rayC2 = some e →
        1 ≤ e := by
  have e1 : Object.intersect sqOne (sceneC2.objects.getD 1 defaultObject) rayC2 = some 2 := by
    norm_num [sceneC2, Object.intersect, Triangle.intersect, Vec3.cross, Vec3.dot,
      Vec3.sub_def, EPS, triB, rayC2, Ray.new_prenormalized]
  have e0 : Object.intersect sqOne (sceneC2.objects.getD 0 defaultObject) rayC2 = some 1 := by
    norm_num [sceneC2, Object.intersect, Triangle.intersect, Vec3.cross, Vec3.dot,
      Vec3.sub_def, EPS, triA, rayC2, Ray.new_prenormalized]
  have hvis : visitedLeaves ahAll rayC2 [sceneC2.bvh] = [1, 0] := by
    show visitedLeaves ahAll rayC2
      [BVHTree.node aabb0 (BVHTree.leaf 0) aabb0 (BVHTree.leaf 1)] = [1, 0]
    rw [visitedLeaves]
    show visitedLeaves ahAll rayC2 [BVHTree.leaf 1, BVHTree.leaf 0] = [1, 0]
    rw [visitedLeaves]
    show 1 :: visitedLeaves ahAll rayC2 [BVHTree.leaf 0] = [1, 0]
    rw [visitedLeaves]
    show 1 :: 0 :: visitedLeaves ahAll rayC2 [] = [1, 0]
    rw [visitedLeaves]
  have hres : sceneC2.intersect sqOne ahAll rayC2 = some (0, 1) := by
    rw [Scene.intersect]
    show intersectStack sqOne ahAll sceneC2.objects rayC2
      [BVHTree.node aabb0 (BVHTree.leaf 0) aabb0 (BVHTree.leaf 1)] none = some (0, 1)
    rw [intersectStack]
    show intersectStack sqOne ahAll sceneC2.objects rayC2
      [BVHTree.leaf 1, BVHTree.leaf 0] none = some (0, 1)
    rw [intersectStack, e1]
    show intersectStack sqOne ahAll sceneC2.objects rayC2
      [BVHTree.leaf 0] (some (1, 2)) = some (0, 1)
    rw [intersectStack, e0]
    have hlt : ((1 : ℚ) < 2) = True := by norm_num
    show intersectStack sqOne ahAll sceneC2.objects rayC2 []
      (if (1 : ℚ) < 2 then some (0, 1) else some (1, 2)) = some (0, 1)
    rw [if_pos (by norm_num : (1 : ℚ) < 2)]
    rw [intersectStack]
  have hv : ∀ i ∈ visitedLeaves ahAll rayC2 [sceneC2.bvh], i < sceneC2.objects.length := by
    rw [hvis]
    intro i hi
    rcases List.mem_cons.mp hi with h | h
    · rw [h]; norm_num [sceneC2]
    · rcases List.mem_cons.mp h with h | h
      · rw [h]; norm_num [sceneC2]
      · exact absurd h (List.not_mem_nil _)
  have hcov : ∀ i, i < sceneC2.objects.length →
      ((sceneC2.objects.getD i defaultObject).intersect sqOne rayC2).isSome →
      i ∈ visitedLeaves ahAll rayC2 [sceneC2.bvh] := by
    rw [hvis]
    intro i hi _
    have hlen : sceneC2.objects.length = 2 := by norm_num [sceneC2]
    rw [hlen] at hi
    interval_cases i <;> simp
  have h := scene_intersect_closest sqOne ahAll sceneC2 rayC2 hv hcov
  obtain ⟨-, hint, hmin⟩ := h.2.1 0 1 hres
  exact ⟨hres, hint, hmin⟩



/-- Claim C8 counterexample: a non-emissive sphere intersected at distance
`EPS/2` (inside `(0, EPS)`) makes `Scene::is_occluded` return true, while the
claimed criterion `EPS < t < max_distance` holds for no primitive: the code's
lower bound is `0`, not `EPS`. -/
theorem c8_occlusion_below_eps_counterexample :
    Scene.is_occluded sqOne ahAll sceneC8 rayC8 1 = true ∧
    spec_any_blocker sqOne sceneC8.objects rayC8 EPS 1 = false ∧
    Object.intersect sqOne (sceneC8.objects.getD 0 defaultObject) rayC8 = some (EPS/2) := by
  have e01 : Object.intersect sqOne (Object.Sphere sphC8) rayC8 = some (EPS/2) := by
    norm_num [Object.intersect, Sphere.intersect, sphC8, Sphere.new,
      rayC8, Ray.new_prenormalized, Vec3.dot, Vec3.sub_def, sqOne, EPS]
  have e0 : Object.intersect sqOne (sceneC8.objects.getD 0 defaultObject) rayC8 =
      some (EPS/2) := e01
  refine ⟨?_, ?_, e0⟩
  · rw [Scene.is_occluded, occludedStack_eq_any]
    show (candList sqOne ahAll sceneC8.objects rayC8 [BVHTree.leaf 0]).any
      (blockerTest sceneC8.objects 1) = true
    rw [candList, e0, candList]
    norm_num [blockerTest, sceneC8, sphC8, Sphere.new, Object.material,
      matDiffuseWhite, Material.new, Spectrum.is_black, Spectrum.black,
      Spectrum.new_f, EPS]
  · norm_num [spec_any_blocker, sceneC8, EPS, Object.material, Object.intersect,
      Sphere.intersect, rayC8, Ray.new_prenormalized, Vec3.dot, Vec3.sub_def,
      sqOne, sphC8, Sphere.new, matDiffuseWhite, Material.new, Spectrum.is_black,
      Spectrum.black, Spectrum.new_f]

/-- Claim C8 amended: with the external BVH build modelled by its guarantee,
`Scene::is_occluded` returns true iff some primitive whose emittance is black
has an exact intersection at a distance `t` with `0 < t < max_distance` (the
code's lower bound is `0`, not `EPS`); emissive primitives never cause a true
result. -/
theorem is_occluded_iff_blocker (sq : ℚ → ℚ) (ah : Aabb → Ray → Bool)
    (S : Scene) (ray : Ray) (max_dist : ℚ)
    (hv : ∀ i ∈ visitedLeaves ah ray [S.bvh], i < S.objects.length)
    (hcov : ∀ i, i < S.objects.length →
      ((S.objects.getD i defaultObject).intersect sq ray).isSome →
      i ∈ visitedLeaves ah ray [S.bvh]) :
    S.is_occluded sq ah ray max_dist = spec_any_blocker sq S.objects ray 0 max_dist := by
  rw [Scene.is_occluded, occludedStack_eq_any, Bool.eq_iff_iff]
  rw [List.any_eq_true, spec_any_blocker, List.any_eq_true]
  constructor
  · rintro ⟨p, hp, hb⟩
    obtain ⟨hvis, hint⟩ := (mem_candList sq ah S.objects ray [S.bvh] p).mp hp
    refine ⟨p.1, List.mem_range.mpr (hv p.1 hvis), ?_⟩
    simp only [hint]
    simpa [blockerTest] using hb
  · rintro ⟨i, hi, hb⟩
    cases hint : (S.objects.getD i defaultObject).intersect sq ray with
    | none => rw [hint] at hb; simp at hb
    | some t =>
      rw [hint] at hb
      refine ⟨(i, t), (mem_candList sq ah S.objects ray [S.bvh] (i, t)).mpr
        ⟨hcov i (List.mem_range.mp hi) (by rw [hint]; rfl), hint⟩, ?_⟩
      simpa [blockerTest] using hb

/-- Witness for the amended shadow-query claim on the one-sphere scene: the
code result equals the `0 < t < max_distance` criterion, which is true there. -/
theorem is_occluded_iff_blocker_witness :
    Scene.is_occluded sqOne ahAll sceneC8 rayC8 1 =
      spec_any_blocker sqOne sceneC8.objects rayC8 0 1 ∧
    spec_any_blocker sqOne sceneC8.objects rayC8 0 1 = true := by
  have hvis : visitedLeaves ahAll rayC8 [sceneC8.bvh] = [0] := by
    show visitedLeaves ahAll rayC8 [BVHTree.leaf 0] = [0]
    rw [visitedLeaves]
    show 0 :: visitedLeaves ahAll rayC8 [] = [0]
    rw [visitedLeaves]
  have hv : ∀ i ∈ visitedLeaves ahAll rayC8 [sceneC8.bvh], i < sceneC8.objects.length := by
    rw [hvis]
    intro i hi
    rcases List.mem_cons.mp hi with h | h
    · rw [h]; norm_num [sceneC8]
    · exact absurd h (List.not_mem_nil _)
  have hcov : ∀ i, i < sceneC8.objects.length →
      ((sceneC8.objects.getD i defaultObject).intersect sqOne rayC8).isSome →
      i ∈ visitedLeaves ahAll rayC8 [sceneC8.bvh] := by
    rw [hvis]
    intro i hi _
    have hlen : sceneC8.objects.length = 1 := by norm_num [sceneC8]
    rw [hlen] at hi
    interval_cases i <;> simp
  refine ⟨is_occluded_iff_blocker sqOne ahAll sceneC8 rayC8 1 hv hcov, ?_⟩
  norm_num [spec_any_blocker, sceneC8, Object.intersect, Sphere.intersect, sphC8,
    Sphere.new, rayC8, Ray.new_prenormalized, Vec3.dot, Vec3.sub_def, sqOne, EPS,
    Object.material, matDiffuseWhite, Material.new, Spectrum.is_black,
    Spectrum.black, Spectrum.new_f]




theorem c3_sample_l_eval :
    Object.sample_l sqC3 lightFar ⟨0, 0, 0⟩ ⟨0, 0, -1⟩ = some ⟨4 * PI, ⟨0, 0, -1⟩⟩ := by
  norm_num [Object.sample_l, lightFar, Sphere.new, Sphere.random_point,
    Vec3.normalized, Vec3.norm, Vec3.smul_coords, Vec3.add_coords, Vec3.sub_def,
    Vec3.dot, sqC3]
  ring

theorem c3_ray_new_eval :
    Ray.new sqC3 ⟨0, 0, 0⟩ ⟨0, 0, -1⟩ = (⟨⟨0, 0, 0⟩, ⟨0, 0, -1⟩⟩ : Ray) := by
  norm_num [Ray.new, Vec3.normalized, Vec3.norm, Vec3.dot, Vec3.smul_coords, sqC3]

theorem c3_tri_eval :
    Object.intersect sqC3 (sceneC3.objects.getD 0 defaultObject)
      (⟨⟨0, 0, 0⟩, ⟨0, 0, -1⟩⟩ : Ray) = none := by
  norm_num [sceneC3, objC3, Object.intersect, Triangle.intersect, triC3,
    Vec3.cross, Vec3.dot, Vec3.sub_def, EPS]

theorem c3_far_eval :
    Object.intersect sqC3 (sceneC3.objects.getD 1 defaultObject)
      (⟨⟨0, 0, 0⟩, ⟨0, 0, -1⟩⟩ : Ray) = some 9 := by
  norm_num [sceneC3, lightFar, Object.intersect, Sphere.intersect, Sphere.new,
    Vec3.dot, Vec3.sub_def, sqC3, EPS]

theorem c3_near_eval :
    Object.intersect sqC3 (sceneC3.objects.getD 2 defaultObject)
      (⟨⟨0, 0, 0⟩, ⟨0, 0, -1⟩⟩ : Ray) = some 4 := by
  norm_num [sceneC3, lightNear, Object.intersect, Sphere.intersect, Sphere.new,
    Vec3.dot, Vec3.sub_def, sqC3, EPS]

theorem c3_scene_intersect_eval :
    sceneC3.intersect sqC3 ahAll (⟨⟨0, 0, 0⟩, ⟨0, 0, -1⟩⟩ : Ray) = some (2, 4) := by
  rw [Scene.intersect]
  show intersectStack sqC3 ahAll sceneC3.objects (⟨⟨0, 0, 0⟩, ⟨0, 0, -1⟩⟩ : Ray)
    [BVHTree.node aabb0 (BVHTree.node aabb0 (BVHTree.leaf 0) aabb0 (BVHTree.leaf 1))
      aabb0 (BVHTree.leaf 2)] none = some (2, 4)
  rw [intersectStack]
  show intersectStack sqC3 ahAll sceneC3.objects (⟨⟨0, 0, 0⟩, ⟨0, 0, -1⟩⟩ : Ray)
    [BVHTree.leaf 2, BVHTree.node aabb0 (BVHTree.leaf 0) aabb0 (BVHTree.leaf 1)]
    none = some (2, 4)
  rw [intersectStack, c3_near_eval]
  show intersectStack sqC3 ahAll sceneC3.objects (⟨⟨0, 0, 0⟩, ⟨0, 0, -1⟩⟩ : Ray)
    [BVHTree.node aabb0 (BVHTree.leaf 0) aabb0 (BVHTree.leaf 1)] (some (2, 4)) = some (2, 4)
  rw [intersectStack]
  show intersectStack sqC3 ahAll sceneC3.objects (⟨⟨0, 0, 0⟩, ⟨0, 0, -1⟩⟩ : Ray)
    [BVHTree.leaf 1, BVHTree.leaf 0] (some (2, 4)) = some (2, 4)
  rw [intersectStack, c3_far_eval]
  show intersectStack sqC3 ahAll sceneC3.objects (⟨⟨0, 0, 0⟩, ⟨0, 0, -1⟩⟩ : Ray)
    [BVHTree.leaf 0] (if (9 : ℚ) < 4 then some (1, 9) else some (2, 4)) = some (2, 4)
  rw [if_neg (by norm_num : ¬((9 : ℚ) < 4))]
  show intersectStack sqC3 ahAll sceneC3.objects (⟨⟨0, 0, 0⟩, ⟨0, 0, -1⟩⟩ : Ray)
    [BVHTree.leaf 0] (some (2, 4)) = some (2, 4)
  rw [intersectStack, c3_tri_eval]
  show intersectStack sqC3 ahAll sceneC3.objects (⟨⟨0, 0, 0⟩, ⟨0, 0, -1⟩⟩ : Ray)
    [] (some (2, 4)) = some (2, 4)
  rw [intersectStack]

theorem c3_cast_zero_eval :
    castRayZero rtC3 (⟨⟨0, 0, 0⟩, ⟨0, 0, -1⟩⟩ : Ray) = Spectrum.new_f 2 2 2 := by
  rw [castRayZero, Scene.intersectRI]
  have : rtC3.scene.intersect rtC3.sq rtC3.ah (⟨⟨0, 0, 0⟩, ⟨0, 0, -1⟩⟩ : Ray) = some (2, 4) :=
    c3_scene_intersect_eval
  rw [this]
  rfl



/-- Claim C3 counterexample: at a shaded point with two emissive spheres along
the sampled direction, the code's per-sample contribution uses the emittance
`(2,2,2)` of the closest hit (the intervening brighter light), yielding
`(8,8,8)`, while the claimed any-hit formula contributes the sampled light's
emittance `(1,1,1)`, yielding `(4,4,4)`: the code casts a full closest-hit ray
with no `d_l` bound instead of the claimed shadow query. -/
theorem c3_direct_lighting_counterexample :
    (one_bounce_sample rtC3 objC3 woC3 ⟨0, 0, 0⟩ ⟨0, 0, 1⟩ lightFar ⟨0, 0⟩
        Spectrum.black).1 = Spectrum.new_f 8 8 8 ∧
    claim_sample_contribution sqC3 sceneC3.objects ⟨0, 0, 0⟩ ⟨0, 0, -1⟩ (4 * PI) 11
      Spectrum.white objC3 woC3 ⟨0, 0, 1⟩ = Spectrum.new_f 4 4 4 ∧
    Spectrum.new_f 8 8 8 ≠ Spectrum.new_f 4 4 4 := by
  have hsq : rtC3.sq = sqC3 := rfl
  have hvec : rtC3.tape.vecs ((⟨0, 0⟩ : RState)).v = ⟨0, 0, -1⟩ := rfl
  refine ⟨?_, ?_, by norm_num [Spectrum.new_f]⟩
  · rw [one_bounce_sample]
    simp only [Tape.drawVec, hvec, hsq, c3_sample_l_eval]
    rw [c3_ray_new_eval]
    rw [show castRayZero rtC3 (⟨⟨0, 0, 0⟩, ⟨0, 0, -1⟩⟩ : Ray) = Spectrum.new_f 2 2 2
      from c3_cast_zero_eval]
    norm_num [Spectrum.is_black, Spectrum.new_f, EPS, Object.bsdf, objC3,
      Object.material, triC3, matDiffuseWhite, Material.new, Spectrum.white,
      Spectrum.smul_def, Spectrum.mul_def, Spectrum.add_def, Spectrum.black,
      Vec3.dot, PI]
  · rw [claim_sample_contribution]
    have hocc : spec_any_blocker sqC3 sceneC3.objects
        (Ray.new_prenormalized ⟨0, 0, 0⟩ ⟨0, 0, -1⟩) EPS 11 = false := by
      have h3 : sceneC3.objects.length = 3 := rfl
      rw [spec_any_blocker, h3]
      show ([0, 1, 2].any _) = false
      simp only [List.any_cons, List.any_nil, Ray.new_prenormalized]
      rw [c3_tri_eval, c3_far_eval, c3_near_eval]
      norm_num [sceneC3, lightFar, lightNear, Sphere.new, Object.material,
        matLightWhite, matLightDouble, Material.new, Spectrum.is_black,
        Spectrum.white, Spectrum.new_f, EPS]
    rw [if_neg (by simp [hocc])]
    norm_num [Object.bsdf, objC3, Object.material, triC3, matDiffuseWhite,
      Material.new, Spectrum.white, Spectrum.smul_def, Spectrum.mul_def,
      Spectrum.new_f, Vec3.dot, PI]



/-- Claim C3 amended: a light sample's contribution is gated by the closest
hit of the full ray `(x, wi)` (no `d_l` bound, no any-hit query): the sample
contributes nothing when that ray hits nothing or its closest primitive's
emittance is black, and otherwise contributes the closest-hit primitive's
emittance (not necessarily the sampled light's) times the shaded object's
bsdf times `|wi.n|` times the sample pdf; the closest hit is minimal among
all exact intersections under the external-BVH hypotheses. -/
theorem one_bounce_sample_closest_emitter (rt : Raytracer) (object : Object)
    (wo point normal : Vec3) (light : Object) (σ : RState) (color : Spectrum)
    (sample : LightSample)
    (hs : light.sample_l rt.sq point (rt.tape.vecs σ.v) = some sample)
    (hv : ∀ i ∈ visitedLeaves rt.ah (Ray.new rt.sq point sample.wi) [rt.scene.bvh],
      i < rt.scene.objects.length)
    (hcov : ∀ i, i < rt.scene.objects.length →
      ((rt.scene.objects.getD i defaultObject).intersect rt.sq
        (Ray.new rt.sq point sample.wi)).isSome →
      i ∈ visitedLeaves rt.ah (Ray.new rt.sq point sample.wi) [rt.scene.bvh]) :
    (one_bounce_sample rt object wo point normal light σ color).2 = ⟨σ.c, σ.v + 1⟩ ∧
    (rt.scene.intersect rt.sq rt.ah (Ray.new rt.sq point sample.wi) = none →
      (one_bounce_sample rt object wo point normal light σ color).1 = color ∧
      ∀ i, i < rt.scene.objects.length →
        (rt.scene.objects.getD i defaultObject).intersect rt.sq
          (Ray.new rt.sq point sample.wi) = none) ∧
    (∀ j d,
      rt.scene.intersect rt.sq rt.ah (Ray.new rt.sq point sample.wi) = some (j, d) →
      j < rt.scene.objects.length ∧
      (rt.scene.objects.getD j defaultObject).intersect rt.sq
        (Ray.new rt.sq point sample.wi) = some d ∧
      (∀ i, i < rt.scene.objects.length → ∀ e,
        (rt.scene.objects.getD i defaultObject).intersect rt.sq
          (Ray.new rt.sq point sample.wi) = some e → d ≤ e) ∧
      (one_bounce_sample rt object wo point normal light σ color).1 =
        (if (rt.scene.get_object j).material.emittance.is_black then color
         else color + (rt.scene.get_object j).material.emittance *
           object.bsdf sample.wi wo * |sample.wi.dot normal| * sample.pdf)) := by
  have hkey : one_bounce_sample rt object wo point normal light σ color =
      (if !(castRayZero rt (Ray.new rt.sq point sample.wi)).is_black then
        (color + castRayZero rt (Ray.new rt.sq point sample.wi) *
          object.bsdf sample.wi wo * |sample.wi.dot normal| * sample.pdf,
          ⟨σ.c, σ.v + 1⟩)
       else (color, ⟨σ.c, σ.v + 1⟩)) := by
    rw [one_bounce_sample]
    simp only [Tape.drawVec]
    rw [hs]
  obtain ⟨hnone, hsome, -⟩ :=
    sceneIntersect_brute_spec rt.sq rt.ah rt.scene (Ray.new rt.sq point sample.wi) hv hcov
  have hblackb : Spectrum.black.is_black = true := by
    norm_num [Spectrum.is_black, Spectrum.black, Spectrum.new_f, EPS]
  refine ⟨?_, ?_, ?_⟩
  · rw [hkey]
    by_cases hb : (castRayZero rt (Ray.new rt.sq point sample.wi)).is_black <;>
      simp [hb]
  · intro h0
    have hcz : castRayZero rt (Ray.new rt.sq point sample.wi) = Spectrum.black := by
      rw [castRayZero, Scene.intersectRI, h0]
      rfl
    refine ⟨?_, hnone h0⟩
    rw [hkey, hcz, hblackb]
    rfl
  · intro j d hjd
    obtain ⟨hjlen, hint, hmin⟩ := hsome j d hjd
    have hcz : castRayZero rt (Ray.new rt.sq point sample.wi) =
        (rt.scene.get_object j).material.emittance := by
      rw [castRayZero, Scene.intersectRI, hjd]
      rfl
    refine ⟨hjlen, hint, hmin, ?_⟩
    rw [hkey, hcz]
    cases hb : ((rt.scene.get_object j).material.emittance).is_black <;> simp [hb]



/-- Witness for the amended direct-lighting claim on the two-light scene: the
sample contributes the closest hit's emittance `(2,2,2)` through the claimed
product, and the tape cursor advances by one vector draw. -/
theorem one_bounce_sample_closest_emitter_witness :
    (one_bounce_sample rtC3 objC3 woC3 ⟨0, 0, 0⟩ ⟨0, 0, 1⟩ lightFar ⟨0, 0⟩
        Spectrum.black).2 = ⟨0, 1⟩ ∧
    (one_bounce_sample rtC3 objC3 woC3 ⟨0, 0, 0⟩ ⟨0, 0, 1⟩ lightFar ⟨0, 0⟩
        Spectrum.black).1 =
      Spectrum.black + Spectrum.new_f 2 2 2 * objC3.bsdf ⟨0, 0, -1⟩ woC3 *
        |(⟨0, 0, -1⟩ : Vec3).dot ⟨0, 0, 1⟩| * (4 * PI) := by
  have hvis : ∀ r : Ray, visitedLeaves ahAll r [sceneC3.bvh] = [2, 1, 0] := by
    intro r
    show visitedLeaves ahAll r
      [BVHTree.node aabb0 (BVHTree.node aabb0 (BVHTree.leaf 0) aabb0 (BVHTree.leaf 1))
        aabb0 (BVHTree.leaf 2)] = [2, 1, 0]
    rw [visitedLeaves]
    show visitedLeaves ahAll r
      [BVHTree.leaf 2,
        BVHTree.node aabb0 (BVHTree.leaf 0) aabb0 (BVHTree.leaf 1)] = [2, 1, 0]
    rw [visitedLeaves]
    show 2 :: visitedLeaves ahAll r
      [BVHTree.node aabb0 (BVHTree.leaf 0) aabb0 (BVHTree.leaf 1)] = [2, 1, 0]
    rw [visitedLeaves]
    show 2 :: visitedLeaves ahAll r [BVHTree.leaf 1, BVHTree.leaf 0] = [2, 1, 0]
    rw [visitedLeaves]
    show 2 :: 1 :: visitedLeaves ahAll r [BVHTree.leaf 0] = [2, 1, 0]
    rw [visitedLeaves]
    show 2 :: 1 :: 0 :: visitedLeaves ahAll r [] = [2, 1, 0]
    rw [visitedLeaves]
  have hv : ∀ i ∈ visitedLeaves rtC3.ah
      (Ray.new rtC3.sq ⟨0, 0, 0⟩ ((⟨4 * PI, ⟨0, 0, -1⟩⟩ : LightSample)).wi)
      [rtC3.scene.bvh], i < rtC3.scene.objects.length := by
    rw [show visitedLeaves rtC3.ah
      (Ray.new rtC3.sq ⟨0, 0, 0⟩ ((⟨4 * PI, ⟨0, 0, -1⟩⟩ : LightSample)).wi)
      [rtC3.scene.bvh] = [2, 1, 0] from hvis _]
    intro i hi
    have hlen : rtC3.scene.objects.length = 3 := rfl
    rw [hlen]
    simp only [List.mem_cons, List.not_mem_nil, or_false] at hi
    rcases hi with rfl | rfl | rfl <;> omega
  have hcov : ∀ i, i < rtC3.scene.objects.length →
      ((rtC3.scene.objects.getD i defaultObject).intersect rtC3.sq
        (Ray.new rtC3.sq ⟨0, 0, 0⟩ ((⟨4 * PI, ⟨0, 0, -1⟩⟩ : LightSample)).wi)).isSome →
      i ∈ visitedLeaves rtC3.ah
        (Ray.new rtC3.sq ⟨0, 0, 0⟩ ((⟨4 * PI, ⟨0, 0, -1⟩⟩ : LightSample)).wi)
        [rtC3.scene.bvh] := by
    rw [show visitedLeaves rtC3.ah
      (Ray.new rtC3.sq ⟨0, 0, 0⟩ ((⟨4 * PI, ⟨0, 0, -1⟩⟩ : LightSample)).wi)
      [rtC3.scene.bvh] = [2, 1, 0] from hvis _]
    intro i hi _
    have hlen : rtC3.scene.objects.length = 3 := rfl
    rw [hlen] at hi
    interval_cases i <;> simp
  have h := one_bounce_sample_closest_emitter rtC3 objC3 woC3 ⟨0, 0, 0⟩ ⟨0, 0, 1⟩
    lightFar ⟨0, 0⟩ Spectrum.black ⟨4 * PI, ⟨0, 0, -1⟩⟩ c3_sample_l_eval hv hcov
  have hres : rtC3.scene.intersect rtC3.sq rtC3.ah
      (Ray.new rtC3.sq ⟨0, 0, 0⟩ ((⟨4 * PI, ⟨0, 0, -1⟩⟩ : LightSample)).wi) =
      some (2, 4) := by
    rw [show (Ray.new rtC3.sq ⟨0, 0, 0⟩ ((⟨4 * PI, ⟨0, 0, -1⟩⟩ : LightSample)).wi) =
      (⟨⟨0, 0, 0⟩, ⟨0, 0, -1⟩⟩ : Ray) from c3_ray_new_eval]
    exact c3_scene_intersect_eval
  obtain ⟨h2, -, h3⟩ := h
  obtain ⟨-, -, -, heq⟩ := h3 2 4 hres
  refine ⟨h2, ?_⟩
  rw [heq, if_neg ?hb]
  case hb =>
    norm_num [show (rtC3.scene.get_object 2).material.emittance = Spectrum.new_f 2 2 2
      from rfl, Spectrum.is_black, Spectrum.new_f, EPS]
  rfl




theorem c5_lights_eval : sceneC5.lights = [] := by
  norm_num [sceneC5, Scene.new, Scene.lights, List.filter, Object.material,
    triC5, sphGlow, Sphere.new, matDiffuseWhite, matFaintGlow, Material.new,
    Spectrum.is_black, Spectrum.black, Spectrum.new_f, glowTint, EPS,
    List.range_succ]

theorem c5_point_eval : riC5.point = ⟨0, 0, EPS⟩ := by
  norm_num [RayIntersection.point, riC5, Ray.new_prenormalized, Vec3.smul_coords,
    Vec3.add_coords, EPS]

theorem c5_one_bounce_eval (σ : RState) :
    one_bounce_radiance_importance rtC5 riC5 σ = (Spectrum.black, σ) := by
  rw [one_bounce_radiance_importance]
  rw [show rtC5.scene.lights = [] from c5_lights_eval]
  rw [one_bounce_lights]
  show (Spectrum.black + zero_bounce_radiance riC5, σ) = (Spectrum.black, σ)
  rw [show zero_bounce_radiance riC5 = Spectrum.black from rfl]
  rw [Spectrum.add_black]

theorem c5_tri_miss_eval :
    Object.intersect sqOne (sceneC5.objects.getD 0 defaultObject)
      (⟨⟨0, 0, EPS⟩, ⟨0, 0, 1⟩⟩ : Ray) = none := by
  norm_num [sceneC5, Scene.new, Object.intersect, Triangle.intersect, triC5,
    Vec3.cross, Vec3.dot, Vec3.sub_def, EPS]

theorem c5_sph_hit_eval :
    Object.intersect sqOne (sceneC5.objects.getD 1 defaultObject)
      (⟨⟨0, 0, EPS⟩, ⟨0, 0, 1⟩⟩ : Ray) = some (9 - EPS) := by
  norm_num [sceneC5, Scene.new, Object.intersect, Sphere.intersect, sphGlow,
    Sphere.new, Vec3.dot, Vec3.sub_def, sqOne, EPS]

theorem c5_scene_intersect_eval :
    sceneC5.intersect sqOne ahAll (⟨⟨0, 0, EPS⟩, ⟨0, 0, 1⟩⟩ : Ray) = some (1, 9 - EPS) := by
  rw [Scene.intersect]
  show intersectStack sqOne ahAll sceneC5.objects (⟨⟨0, 0, EPS⟩, ⟨0, 0, 1⟩⟩ : Ray)
    [BVHTree.node aabb0 (BVHTree.leaf 0) aabb0 (BVHTree.leaf 1)] none = some (1, 9 - EPS)
  rw [intersectStack]
  show intersectStack sqOne ahAll sceneC5.objects (⟨⟨0, 0, EPS⟩, ⟨0, 0, 1⟩⟩ : Ray)
    [BVHTree.leaf 1, BVHTree.leaf 0] none = some (1, 9 - EPS)
  rw [intersectStack, c5_sph_hit_eval]
  show intersectStack sqOne ahAll sceneC5.objects (⟨⟨0, 0, EPS⟩, ⟨0, 0, 1⟩⟩ : Ray)
    [BVHTree.leaf 0] (some (1, 9 - EPS)) = some (1, 9 - EPS)
  rw [intersectStack, c5_tri_miss_eval]
  show intersectStack sqOne ahAll sceneC5.objects (⟨⟨0, 0, EPS⟩, ⟨0, 0, 1⟩⟩ : Ray)
    [] (some (1, 9 - EPS)) = some (1, 9 - EPS)
  rw [intersectStack]

theorem c5_cast_one_eval (σ : RState) :
    cast_ray rtC5 1 (⟨⟨0, 0, EPS⟩, ⟨0, 0, 1⟩⟩ : Ray) σ = (glowTint, σ) := by
  rw [cast_ray, Scene.intersectRI]
  rw [show rtC5.scene.intersect rtC5.sq rtC5.ah (⟨⟨0, 0, EPS⟩, ⟨0, 0, 1⟩⟩ : Ray) =
    some (1, 9 - EPS) from c5_scene_intersect_eval]
  show one_bounce_radiance_importance rtC5
    ⟨9 - EPS, rtC5.scene.get_object 1, ⟨⟨0, 0, EPS⟩, ⟨0, 0, 1⟩⟩⟩ σ = (glowTint, σ)
  rw [one_bounce_radiance_importance]
  rw [show rtC5.scene.lights = [] from c5_lights_eval]
  rw [one_bounce_lights]
  show (Spectrum.black + zero_bounce_radiance
    ⟨9 - EPS, rtC5.scene.get_object 1, ⟨⟨0, 0, EPS⟩, ⟨0, 0, 1⟩⟩⟩, σ) = (glowTint, σ)
  rw [show zero_bounce_radiance
    ⟨9 - EPS, rtC5.scene.get_object 1, ⟨⟨0, 0, EPS⟩, ⟨0, 0, 1⟩⟩⟩ = glowTint from rfl]
  rw [Spectrum.black_add]



/-- Unfolding of `global_illumination` into threshold-coin form. -/
theorem global_illumination_step (rt : Raytracer)
    (recurse : Ray → RState → Spectrum × RState) (ri : RayIntersection)
    (σ : RState) :
    global_illumination rt recurse ri σ =
      (let normal := ri.object.surface_normal rt.sq ri.point
       let lres := one_bounce_radiance_importance rt ri σ
       let x := rt.tape.coins lres.2.c
       let σ2 : RState := ⟨lres.2.c + 1, lres.2.v⟩
       if RUSSIAN_ROULETTE_PROBABILITY < x then (lres.1, σ2)
       else
         let sres := ri.object.sample_bsdf_rt rt ri.ray.direction normal σ2
         let cres := recurse (Ray.new rt.sq ri.point sres.1.wi) sres.2
         (lres.1 +
           (if cres.1.is_black then cres.1
            else cres.1 * sres.1.reflected * |sres.1.wi.dot normal| * sres.1.pdf),
          cres.2)) := by
  rw [global_illumination]
  simp only [Tape.drawCoin, weighted_coin_flip]
  set nrm := ri.object.surface_normal rt.sq ri.point with hnrm
  set lres := one_bounce_radiance_importance rt ri σ with hl
  by_cases hx : RUSSIAN_ROULETTE_PROBABILITY < rt.tape.coins lres.2.c
  · have hd : (decide (rt.tape.coins lres.2.c ≤ RUSSIAN_ROULETTE_PROBABILITY) : Bool) =
        false := by simp [not_le.mpr hx]
    rw [hd]
    simp [hx]
  · have hd : (decide (rt.tape.coins lres.2.c ≤ RUSSIAN_ROULETTE_PROBABILITY) : Bool) =
        true := by simp [not_lt.mp hx]
    rw [hd]
    simp only [Bool.not_true, Bool.false_eq_true, if_false, if_neg hx]
    set sres := ri.object.sample_bsdf_rt rt ri.ray.direction nrm
      ⟨lres.2.c + 1, lres.2.v⟩ with hsr
    set cres := recurse (Ray.new rt.sq ri.point sres.1.wi) sres.2 with hcr
    cases hb : cres.1.is_black <;> simp [hb]

/-- Claim C5 amended: `global_illumination` computes the direct estimate `L`,
draws one coin, returns `L` alone when the draw exceeds the fixed threshold
`0.7` (the stop event of probability 0.3 under a uniform draw), and otherwise
adds `c * reflected * |wi.n| * pdf` when the recursive radiance `c` is not
black but `c` itself unchanged when `c` is black (the black guard is the only
departure from the claim); no division by the survival probability occurs in
either case. -/
theorem global_illumination_amended (rt : Raytracer)
    (recurse : Ray → RState → Spectrum × RState) (ri : RayIntersection)
    (σ : RState) :
    global_illumination rt recurse ri σ =
      (let normal := ri.object.surface_normal rt.sq ri.point
       let lres := one_bounce_radiance_importance rt ri σ
       let x := rt.tape.coins lres.2.c
       let σ2 : RState := ⟨lres.2.c + 1, lres.2.v⟩
       if RUSSIAN_ROULETTE_PROBABILITY < x then (lres.1, σ2)
       else
         let sres := ri.object.sample_bsdf_rt rt ri.ray.direction normal σ2
         let cres := recurse (Ray.new rt.sq ri.point sres.1.wi) sres.2
         (lres.1 +
           (if cres.1.is_black then cres.1
            else cres.1 * sres.1.reflected * |sres.1.wi.dot normal| * sres.1.pdf),
          cres.2)) :=
  global_illumination_step rt recurse ri σ



theorem c5_sample_bsdf_eval :
    (Object.Triangle triC5).sample_bsdf rtC5.sq ⟨0, 0, -1⟩ ⟨0, 0, 1⟩ ⟨0, 0, 1⟩ 0 =
      ⟨⟨0, 0, 1⟩, 2 * PI, Spectrum.white * ((1 : ℚ) / PI)⟩ := by
  show (Object.Triangle triC5).sample_bsdf sqOne ⟨0, 0, -1⟩ ⟨0, 0, 1⟩ ⟨0, 0, 1⟩ 0 = _
  norm_num [Object.sample_bsdf, Object.bsdf, Object.material, triC5,
    matDiffuseWhite, Material.new, Vec3.to_coord_space, Vec3.smul_coords,
    Vec3.add_coords, Spectrum.white, Spectrum.new_f]

theorem c5_ray_new_eval :
    Ray.new rtC5.sq ⟨0, 0, EPS⟩ ⟨0, 0, 1⟩ = (⟨⟨0, 0, EPS⟩, ⟨0, 0, 1⟩⟩ : Ray) := by
  show Ray.new sqOne ⟨0, 0, EPS⟩ ⟨0, 0, 1⟩ = _
  norm_num [Ray.new, Vec3.normalized, Vec3.norm, Vec3.dot, Vec3.smul_coords, sqOne]

/-- Claim C5 counterexample: with the roulette continuing (coin `1/2` at
threshold `0.7`) and the recursive radiance `c = glowTint` counted as black by
`is_black` though nonzero, `global_illumination` adds `c` unchanged and
returns `glowTint`, while the claim's unconditional product would add
`c * reflected * |wi.n| * pdf = 2 c`; so the claimed equality fails, and in
particular no division by the survival probability could restore it. -/
theorem c5_black_guard_counterexample :
    weighted_coin_flip (rtC5.tape.coins 0) RUSSIAN_ROULETTE_PROBABILITY = true ∧
    (global_illumination rtC5 (fun r σ2 => cast_ray rtC5 1 r σ2) riC5 ⟨0, 0⟩).1 =
      glowTint ∧
    (cast_ray rtC5 1 (⟨⟨0, 0, EPS⟩, ⟨0, 0, 1⟩⟩ : Ray) ⟨1, 1⟩).1 = glowTint ∧
    (Object.Triangle triC5).sample_bsdf rtC5.sq ⟨0, 0, -1⟩ ⟨0, 0, 1⟩ ⟨0, 0, 1⟩ 0 =
      ⟨⟨0, 0, 1⟩, 2 * PI, Spectrum.white * ((1 : ℚ) / PI)⟩ ∧
    glowTint ≠ Spectrum.black +
      glowTint * (Spectrum.white * ((1 : ℚ) / PI)) * (1 : ℚ) * (2 * PI) := by
  refine ⟨?_, ?_, ?_, c5_sample_bsdf_eval, ?_⟩
  · show weighted_coin_flip (1/2) RUSSIAN_ROULETTE_PROBABILITY = true
    simp only [weighted_coin_flip, RUSSIAN_ROULETTE_PROBABILITY]
    norm_num
  · rw [global_illumination_step]
    simp only [c5_one_bounce_eval]
    rw [if_neg (by
      show ¬(RUSSIAN_ROULETTE_PROBABILITY <
        rtC5.tape.coins ((Spectrum.black, (⟨0, 0⟩ : RState)).2).c)
      show ¬(RUSSIAN_ROULETTE_PROBABILITY < (1/2 : ℚ))
      norm_num [RUSSIAN_ROULETTE_PROBABILITY])]
    have hsrt : riC5.object.sample_bsdf_rt rtC5 riC5.ray.direction
        (riC5.object.surface_normal rtC5.sq riC5.point)
        ⟨((Spectrum.black, (⟨0, 0⟩ : RState)).2).c + 1,
          ((Spectrum.black, (⟨0, 0⟩ : RState)).2).v⟩ =
        (⟨⟨0, 0, 1⟩, 2 * PI, Spectrum.white * ((1 : ℚ) / PI)⟩, ⟨1, 1⟩) := by
      show ((Object.Triangle triC5).sample_bsdf rtC5.sq ⟨0, 0, -1⟩ ⟨0, 0, 1⟩
        (⟨0, 0, 1⟩ : Vec3) 0, (⟨1, 1⟩ : RState)) = _
      rw [c5_sample_bsdf_eval]
    rw [hsrt, c5_point_eval]
    show (Spectrum.black +
      (if ((cast_ray rtC5 1 (Ray.new rtC5.sq ⟨0, 0, EPS⟩ ⟨0, 0, 1⟩) ⟨1, 1⟩).1).is_black
       then (cast_ray rtC5 1 (Ray.new rtC5.sq ⟨0, 0, EPS⟩ ⟨0, 0, 1⟩) ⟨1, 1⟩).1
       else (cast_ray rtC5 1 (Ray.new rtC5.sq ⟨0, 0, EPS⟩ ⟨0, 0, 1⟩) ⟨1, 1⟩).1 *
         (Spectrum.white * ((1 : ℚ) / PI)) * |(⟨0, 0, 1⟩ : Vec3).dot ⟨0, 0, 1⟩| *
         (2 * PI))) = glowTint
    rw [c5_ray_new_eval]
    simp only [c5_cast_one_eval]
    rw [if_pos (by norm_num [Spectrum.is_black, glowTint, Spectrum.new_f, EPS] :
      glowTint.is_black = true)]
    rw [Spectrum.black_add]
  · exact congrArg Prod.fst (c5_cast_one_eval ⟨1, 1⟩)
  · norm_num [glowTint, Spectrum.black, Spectrum.new_f, Spectrum.add_def,
      Spectrum.mul_def, Spectrum.smul_def, Spectrum.white, EPS, PI]




theorem c6_screen_eval : rtC6.screen_to_world 0 0 = ⟨0, 0, -1⟩ := by
  norm_num [Raytracer.screen_to_world, rtC6, Vec3.normalized, Vec3.norm,
    Vec3.dot, Vec3.smul_coords, sqC6]

theorem c6_primary_ray_eval :
    Ray.new rtC6.sq camC6 ⟨0, 0, -1⟩ = (⟨⟨0, 0, 5⟩, ⟨0, 0, -1⟩⟩ : Ray) := by
  show Ray.new sqC6 camC6 ⟨0, 0, -1⟩ = _
  norm_num [Ray.new, camC6, Vec3.normalized, Vec3.norm, Vec3.dot, Vec3.smul_coords, sqC6]

theorem c6_one_bounce (ri : RayIntersection) (σ : RState) :
    one_bounce_radiance_importance rtC6 ri σ = (zero_bounce_radiance ri, σ) := by
  rw [one_bounce_radiance_importance]
  rw [show rtC6.scene.lights = [] from c5_lights_eval]
  rw [one_bounce_lights]
  show (Spectrum.black + zero_bounce_radiance ri, σ) = _
  rw [Spectrum.black_add]

theorem c6_tri_hit :
    Object.intersect sqC6 (sceneC5.objects.getD 0 defaultObject)
      (⟨⟨0, 0, 5⟩, ⟨0, 0, -1⟩⟩ : Ray) = some 5 := by
  norm_num [sceneC5, Scene.new, Object.intersect, Triangle.intersect, triC5,
    Vec3.cross, Vec3.dot, Vec3.sub_def, EPS]

theorem c6_sph_miss :
    Object.intersect sqC6 (sceneC5.objects.getD 1 defaultObject)
      (⟨⟨0, 0, 5⟩, ⟨0, 0, -1⟩⟩ : Ray) = none := by
  norm_num [sceneC5, Scene.new, Object.intersect, Sphere.intersect, sphGlow,
    Sphere.new, Vec3.dot, Vec3.sub_def, sqC6, EPS]

theorem c6_prim_scene :
    sceneC5.intersect sqC6 ahAll (⟨⟨0, 0, 5⟩, ⟨0, 0, -1⟩⟩ : Ray) = some (0, 5) := by
  rw [Scene.intersect]
  show intersectStack sqC6 ahAll sceneC5.objects (⟨⟨0, 0, 5⟩, ⟨0, 0, -1⟩⟩ : Ray)
    [BVHTree.node aabb0 (BVHTree.leaf 0) aabb0 (BVHTree.leaf 1)] none = some (0, 5)
  rw [intersectStack]
  show intersectStack sqC6 ahAll sceneC5.objects (⟨⟨0, 0, 5⟩, ⟨0, 0, -1⟩⟩ : Ray)
    [BVHTree.leaf 1, BVHTree.leaf 0] none = some (0, 5)
  rw [intersectStack, c6_sph_miss]
  show intersectStack sqC6 ahAll sceneC5.objects (⟨⟨0, 0, 5⟩, ⟨0, 0, -1⟩⟩ : Ray)
    [BVHTree.leaf 0] none = some (0, 5)
  rw [intersectStack, c6_tri_hit]
  show intersectStack sqC6 ahAll sceneC5.objects (⟨⟨0, 0, 5⟩, ⟨0, 0, -1⟩⟩ : Ray)
    [] (some (0, 5)) = some (0, 5)
  rw [intersectStack]

theorem c6_tri_miss_up :
    Object.intersect sqC6 (sceneC5.objects.getD 0 defaultObject)
      (⟨⟨0, 0, EPS⟩, ⟨0, 0, 1⟩⟩ : Ray) = none := by
  norm_num [sceneC5, Scene.new, Object.intersect, Triangle.intersect, triC5,
    Vec3.cross, Vec3.dot, Vec3.sub_def, EPS]

theorem c6_sph_hit_up :
    Object.intersect sqC6 (sceneC5.objects.getD 1 defaultObject)
      (⟨⟨0, 0, EPS⟩, ⟨0, 0, 1⟩⟩ : Ray) = some (9 - EPS) := by
  norm_num [sceneC5, Scene.new, Object.intersect, Sphere.intersect, sphGlow,
    Sphere.new, Vec3.dot, Vec3.sub_def, sqC6, EPS]

theorem c6_up_scene :
    sceneC5.intersect sqC6 ahAll (⟨⟨0, 0, EPS⟩, ⟨0, 0, 1⟩⟩ : Ray) = some (1, 9 - EPS) := by
  rw [Scene.intersect]
  show intersectStack sqC6 ahAll sceneC5.objects (⟨⟨0, 0, EPS⟩, ⟨0, 0, 1⟩⟩ : Ray)
    [BVHTree.node aabb0 (BVHTree.leaf 0) aabb0 (BVHTree.leaf 1)] none = some (1, 9 - EPS)
  rw [intersectStack]
  show intersectStack sqC6 ahAll sceneC5.objects (⟨⟨0, 0, EPS⟩, ⟨0, 0, 1⟩⟩ : Ray)
    [BVHTree.leaf 1, BVHTree.leaf 0] none = some (1, 9 - EPS)
  rw [intersectStack, c6_sph_hit_up]
  show intersectStack sqC6 ahAll sceneC5.objects (⟨⟨0, 0, EPS⟩, ⟨0, 0, 1⟩⟩ : Ray)
    [BVHTree.leaf 0] (some (1, 9 - EPS)) = some (1, 9 - EPS)
  rw [intersectStack, c6_tri_miss_up]
  show intersectStack sqC6 ahAll sceneC5.objects (⟨⟨0, 0, EPS⟩, ⟨0, 0, 1⟩⟩ : Ray)
    [] (some (1, 9 - EPS)) = some (1, 9 - EPS)
  rw [intersectStack]

theorem c6_cast_one (σ : RState) :
    cast_ray rtC6 1 (⟨⟨0, 0, EPS⟩, ⟨0, 0, 1⟩⟩ : Ray) σ = (glowTint, σ) := by
  rw [cast_ray, Scene.intersectRI]
  rw [show rtC6.scene.intersect rtC6.sq rtC6.ah (⟨⟨0, 0, EPS⟩, ⟨0, 0, 1⟩⟩ : Ray) =
    some (1, 9 - EPS) from c6_up_scene]
  show one_bounce_radiance_importance rtC6
    ⟨9 - EPS, rtC6.scene.get_object 1, ⟨⟨0, 0, EPS⟩, ⟨0, 0, 1⟩⟩⟩ σ = (glowTint, σ)
  rw [c6_one_bounce]
  rfl

theorem c6_point_eval :
    RayIntersection.point ⟨5, rtC6.scene.get_object 0, ⟨⟨0, 0, 5⟩, ⟨0, 0, -1⟩⟩⟩ =
      ⟨0, 0, EPS⟩ := by
  norm_num [RayIntersection.point, Vec3.smul_coords, Vec3.add_coords, EPS]

theorem c6_sample_bsdf_eval :
    (rtC6.scene.get_object 0).sample_bsdf rtC6.sq ⟨0, 0, -1⟩ ⟨0, 0, 1⟩ ⟨0, 0, 1⟩ 0 =
      ⟨⟨0, 0, 1⟩, 2 * PI, Spectrum.white * ((1 : ℚ) / PI)⟩ := by
  show (Object.Triangle triC5).sample_bsdf sqC6 ⟨0, 0, -1⟩ ⟨0, 0, 1⟩ ⟨0, 0, 1⟩ 0 = _
  norm_num [Object.sample_bsdf, Object.bsdf, Object.material, triC5,
    matDiffuseWhite, Material.new, Vec3.to_coord_space, Vec3.smul_coords,
    Vec3.add_coords, Spectrum.white, Spectrum.new_f]

theorem c6_ray_up_eval :
    Ray.new rtC6.sq ⟨0, 0, EPS⟩ ⟨0, 0, 1⟩ = (⟨⟨0, 0, EPS⟩, ⟨0, 0, 1⟩⟩ : Ray) := by
  show Ray.new sqC6 ⟨0, 0, EPS⟩ ⟨0, 0, 1⟩ = _
  norm_num [Ray.new, Vec3.normalized, Vec3.norm, Vec3.dot, Vec3.smul_coords, sqC6]

/-- The intersection record of the estimator's primary ray: the triangle hit at
distance `5`. -/
def riC6 : RayIntersection :=
  ⟨5, rtC6.scene.get_object 0, ⟨⟨0, 0, 5⟩, ⟨0, 0, -1⟩⟩⟩

theorem c6_ri_point_eval : riC6.point = ⟨0, 0, EPS⟩ := by
  norm_num [RayIntersection.point, riC6, Vec3.smul_coords, Vec3.add_coords, EPS]

theorem c6_cast_two_a :
    cast_ray rtC6 2 (⟨⟨0, 0, 5⟩, ⟨0, 0, -1⟩⟩ : Ray) ⟨0, 0⟩ =
      (Spectrum.black, ⟨1, 0⟩) := by
  rw [cast_ray, Scene.intersectRI]
  rw [show rtC6.scene.intersect rtC6.sq rtC6.ah (⟨⟨0, 0, 5⟩, ⟨0, 0, -1⟩⟩ : Ray) =
    some (0, 5) from c6_prim_scene]
  show global_illumination rtC6 (fun r σ2 => cast_ray rtC6 1 r σ2) riC6 ⟨0, 0⟩ = _
  rw [global_illumination_step]
  simp only [c6_one_bounce]
  rw [if_pos (by
    show RUSSIAN_ROULETTE_PROBABILITY <
      rtC6.tape.coins (((zero_bounce_radiance riC6 : Spectrum),
        (⟨0, 0⟩ : RState)).2).c
    show RUSSIAN_ROULETTE_PROBABILITY < (9/10 : ℚ)
    norm_num [RUSSIAN_ROULETTE_PROBABILITY])]
  rw [show zero_bounce_radiance riC6 = Spectrum.black from rfl]

theorem c6_cast_two_b :
    cast_ray rtC6 2 (⟨⟨0, 0, 5⟩, ⟨0, 0, -1⟩⟩ : Ray) ⟨1, 0⟩ =
      (Spectrum.black, ⟨2, 0⟩) := by
  rw [cast_ray, Scene.intersectRI]
  rw [show rtC6.scene.intersect rtC6.sq rtC6.ah (⟨⟨0, 0, 5⟩, ⟨0, 0, -1⟩⟩ : Ray) =
    some (0, 5) from c6_prim_scene]
  show global_illumination rtC6 (fun r σ2 => cast_ray rtC6 1 r σ2) riC6 ⟨1, 0⟩ = _
  rw [global_illumination_step]
  simp only [c6_one_bounce]
  rw [if_pos (by
    show RUSSIAN_ROULETTE_PROBABILITY <
      rtC6.tape.coins (((zero_bounce_radiance riC6 : Spectrum),
        (⟨1, 0⟩ : RState)).2).c
    show RUSSIAN_ROULETTE_PROBABILITY < (9/10 : ℚ)
    norm_num [RUSSIAN_ROULETTE_PROBABILITY])]
  rw [show zero_bounce_radiance riC6 = Spectrum.black from rfl]

theorem c6_cast_two_c :
    cast_ray rtC6 2 (⟨⟨0, 0, 5⟩, ⟨0, 0, -1⟩⟩ : Ray) ⟨2, 0⟩ =
      (glowTint, ⟨3, 1⟩) := by
  rw [cast_ray, Scene.intersectRI]
  rw [show rtC6.scene.intersect rtC6.sq rtC6.ah (⟨⟨0, 0, 5⟩, ⟨0, 0, -1⟩⟩ : Ray) =
    some (0, 5) from c6_prim_scene]
  show global_illumination rtC6 (fun r σ2 => cast_ray rtC6 1 r σ2) riC6 ⟨2, 0⟩ = _
  rw [global_illumination_step]
  simp only [c6_one_bounce]
  simp only [show zero_bounce_radiance riC6 = Spectrum.black from rfl]
  rw [if_neg (by
    show ¬(RUSSIAN_ROULETTE_PROBABILITY <
      rtC6.tape.coins ((Spectrum.black, (⟨2, 0⟩ : RState)).2).c)
    show ¬(RUSSIAN_ROULETTE_PROBABILITY < (1/2 : ℚ))
    norm_num [RUSSIAN_ROULETTE_PROBABILITY])]
  have hsrt : riC6.object.sample_bsdf_rt rtC6 riC6.ray.direction
      (riC6.object.surface_normal rtC6.sq riC6.point)
      ⟨((Spectrum.black, (⟨2, 0⟩ : RState)).2).c + 1,
        ((Spectrum.black, (⟨2, 0⟩ : RState)).2).v⟩ =
      (⟨⟨0, 0, 1⟩, 2 * PI, Spectrum.white * ((1 : ℚ) / PI)⟩, ⟨3, 1⟩) := by
    show ((rtC6.scene.get_object 0).sample_bsdf rtC6.sq ⟨0, 0, -1⟩ ⟨0, 0, 1⟩
      (⟨0, 0, 1⟩ : Vec3) 0, (⟨3, 1⟩ : RState)) = _
    rw [c6_sample_bsdf_eval]
  rw [hsrt, c6_ri_point_eval]
  show (Spectrum.black +
    (if ((cast_ray rtC6 1 (Ray.new rtC6.sq ⟨0, 0, EPS⟩ ⟨0, 0, 1⟩) ⟨3, 1⟩).1).is_black
     then (cast_ray rtC6 1 (Ray.new rtC6.sq ⟨0, 0, EPS⟩ ⟨0, 0, 1⟩) ⟨3, 1⟩).1
     else (cast_ray rtC6 1 (Ray.new rtC6.sq ⟨0, 0, EPS⟩ ⟨0, 0, 1⟩) ⟨3, 1⟩).1 *
       (Spectrum.white * ((1 : ℚ) / PI)) * |(⟨0, 0, 1⟩ : Vec3).dot ⟨0, 0, 1⟩| *
       (2 * PI)),
    (cast_ray rtC6 1 (Ray.new rtC6.sq ⟨0, 0, EPS⟩ ⟨0, 0, 1⟩) ⟨3, 1⟩).2) =
    ((glowTint : Spectrum), (⟨3, 1⟩ : RState))
  rw [c6_ray_up_eval]
  simp only [c6_cast_one]
  rw [if_pos (by norm_num [Spectrum.is_black, glowTint, Spectrum.new_f, EPS] :
    glowTint.is_black = true)]
  rw [Spectrum.black_add]

/-- C6: amended per-pixel estimator.  When `samples_per_pixel >= 2` and the sum
of the first two samples is black, `render_helper` returns black immediately,
skipping the remaining evaluations; otherwise it returns the claimed average
`S / samples_per_pixel` of `samples_per_pixel` evaluations of `cast_ray` on the
one jitter-free primary ray built from the camera position and the
screen-to-world direction of the pixel. -/
theorem render_helper_amended (rt : Raytracer) (i j : ℕ) (camera_pos : Vec3)
    (σ : RState) (hk : 1 ≤ rt.config.samples_per_pixel) :
    (render_helper rt i j camera_pos σ).1 =
      if 2 ≤ rt.config.samples_per_pixel ∧
          ((castLoop rt (Ray.new rt.sq camera_pos (rt.screen_to_world i j)) 2 σ
              Spectrum.black).1.is_black = true) then
        Spectrum.black
      else
        (castLoop rt (Ray.new rt.sq camera_pos (rt.screen_to_world i j))
            rt.config.samples_per_pixel σ Spectrum.black).1 *
          (1 / (rt.config.samples_per_pixel : ℚ)) := by
  simp only [render_helper]
  by_cases h1 : 1 < rt.config.samples_per_pixel
  · rw [if_pos h1]
    by_cases hb : (Spectrum.black +
        (cast_ray rt rt.config.bounces
          (Ray.new rt.sq camera_pos (rt.screen_to_world i j)) σ).1 +
        (cast_ray rt rt.config.bounces
          (Ray.new rt.sq camera_pos (rt.screen_to_world i j))
          (cast_ray rt rt.config.bounces
            (Ray.new rt.sq camera_pos (rt.screen_to_world i j)) σ).2).1).is_black = true
    · rw [if_pos hb, if_pos (⟨h1, hb⟩ :
        2 ≤ rt.config.samples_per_pixel ∧
          ((castLoop rt (Ray.new rt.sq camera_pos (rt.screen_to_world i j)) 2 σ
            Spectrum.black).1.is_black = true))]
    · rw [if_neg hb]
      rw [if_neg (fun h => hb h.2 :
        ¬(2 ≤ rt.config.samples_per_pixel ∧
          ((castLoop rt (Ray.new rt.sq camera_pos (rt.screen_to_world i j)) 2 σ
            Spectrum.black).1.is_black = true)))]
      obtain ⟨m, hm⟩ : ∃ m, rt.config.samples_per_pixel = m + 2 :=
        ⟨rt.config.samples_per_pixel - 2, by omega⟩
      rw [hm]
      rfl
  · have hm : rt.config.samples_per_pixel = 1 := by omega
    rw [if_neg h1, hm]
    rw [if_neg (fun h => absurd h.1 (by norm_num) :
      ¬((2 : ℕ) ≤ 1 ∧
        ((castLoop rt (Ray.new rt.sq camera_pos (rt.screen_to_world i j)) 2 σ
          Spectrum.black).1.is_black = true)))]
    rw [show castLoop rt (Ray.new rt.sq camera_pos (rt.screen_to_world i j)) 1 σ
        Spectrum.black =
      (Spectrum.black + (cast_ray rt rt.config.bounces
          (Ray.new rt.sq camera_pos (rt.screen_to_world i j)) σ).1,
        (cast_ray rt rt.config.bounces
          (Ray.new rt.sq camera_pos (rt.screen_to_world i j)) σ).2) from rfl]
    rw [Spectrum.black_add]
    rw [show (1 / ((1 : ℕ) : ℚ)) = 1 by norm_num, Spectrum.smul_one]

/-- C6 witness: the amended estimator instantiated on the one-pixel faint-glow
scene with three samples per pixel. -/
theorem render_helper_amended_witness :
    1 ≤ rtC6.config.samples_per_pixel ∧
    ((render_helper rtC6 0 0 camC6 ⟨0, 0⟩).1 =
      if 2 ≤ rtC6.config.samples_per_pixel ∧
          ((castLoop rtC6 (Ray.new rtC6.sq camC6 (rtC6.screen_to_world 0 0)) 2 ⟨0, 0⟩
              Spectrum.black).1.is_black = true) then
        Spectrum.black
      else
        (castLoop rtC6 (Ray.new rtC6.sq camC6 (rtC6.screen_to_world 0 0))
            rtC6.config.samples_per_pixel ⟨0, 0⟩ Spectrum.black).1 *
          (1 / (rtC6.config.samples_per_pixel : ℚ))) :=
  ⟨by decide, render_helper_amended rtC6 0 0 camC6 ⟨0, 0⟩ (by decide)⟩

/-- C6 counterexample: with three samples per pixel, two roulette stops and then
a surviving sample that sees the faint glow, the code returns black through the
early-termination branch while the claimed estimator `S / k` over all three
samples is `(EPS/9, EPS/9, EPS/9)`. -/
theorem c6_early_black_exit_counterexample :
    (render_helper rtC6 0 0 camC6 ⟨0, 0⟩).1 = Spectrum.black ∧
    spec_pixel_estimate rtC6 0 0 camC6 ⟨0, 0⟩ =
      Spectrum.new_f (EPS / 9) (EPS / 9) (EPS / 9) ∧
    Spectrum.black ≠ Spectrum.new_f (EPS / 9) (EPS / 9) (EPS / 9) := by
  have hcl : castLoop rtC6 (⟨⟨0, 0, 5⟩, ⟨0, 0, -1⟩⟩ : Ray) 3 ⟨0, 0⟩ Spectrum.black =
      (Spectrum.black + Spectrum.black + Spectrum.black + glowTint, ⟨3, 1⟩) := by
    rw [show castLoop rtC6 (⟨⟨0, 0, 5⟩, ⟨0, 0, -1⟩⟩ : Ray) 3 ⟨0, 0⟩ Spectrum.black =
        castLoop rtC6 (⟨⟨0, 0, 5⟩, ⟨0, 0, -1⟩⟩ : Ray) 2
          (cast_ray rtC6 2 (⟨⟨0, 0, 5⟩, ⟨0, 0, -1⟩⟩ : Ray) ⟨0, 0⟩).2
          (Spectrum.black +
            (cast_ray rtC6 2 (⟨⟨0, 0, 5⟩, ⟨0, 0, -1⟩⟩ : Ray) ⟨0, 0⟩).1) from rfl,
      c6_cast_two_a]
    rw [show castLoop rtC6 (⟨⟨0, 0, 5⟩, ⟨0, 0, -1⟩⟩ : Ray) 2
          ((Spectrum.black, (⟨1, 0⟩ : RState)).2)
          (Spectrum.black + (Spectrum.black, (⟨1, 0⟩ : RState)).1) =
        castLoop rtC6 (⟨⟨0, 0, 5⟩, ⟨0, 0, -1⟩⟩ : Ray) 1
          (cast_ray rtC6 2 (⟨⟨0, 0, 5⟩, ⟨0, 0, -1⟩⟩ : Ray) ⟨1, 0⟩).2
          (Spectrum.black + Spectrum.black +
            (cast_ray rtC6 2 (⟨⟨0, 0, 5⟩, ⟨0, 0, -1⟩⟩ : Ray) ⟨1, 0⟩).1) from rfl,
      c6_cast_two_b]
    rw [show castLoop rtC6 (⟨⟨0, 0, 5⟩, ⟨0, 0, -1⟩⟩ : Ray) 1
          ((Spectrum.black, (⟨2, 0⟩ : RState)).2)
          (Spectrum.black + Spectrum.black + (Spectrum.black, (⟨2, 0⟩ : RState)).1) =
        castLoop rtC6 (⟨⟨0, 0, 5⟩, ⟨0, 0, -1⟩⟩ : Ray) 0
          (cast_ray rtC6 2 (⟨⟨0, 0, 5⟩, ⟨0, 0, -1⟩⟩ : Ray) ⟨2, 0⟩).2
          (Spectrum.black + Spectrum.black + Spectrum.black +
            (cast_ray rtC6 2 (⟨⟨0, 0, 5⟩, ⟨0, 0, -1⟩⟩ : Ray) ⟨2, 0⟩).1) from rfl,
      c6_cast_two_c]
    rfl
  refine ⟨?_, ?_, ?_⟩
  · simp only [render_helper, c6_screen_eval, c6_primary_ray_eval]
    rw [show rtC6.config.bounces = 2 from rfl]
    rw [c6_cast_two_a]
    rw [show ((Spectrum.black, (⟨1, 0⟩ : RState)).2) = (⟨1, 0⟩ : RState) from rfl]
    rw [c6_cast_two_b]
    rw [if_pos (show (1 : ℕ) < rtC6.config.samples_per_pixel by decide)]
    rw [if_pos (show (Spectrum.black + (Spectrum.black, (⟨1, 0⟩ : RState)).1 +
        (Spectrum.black, (⟨2, 0⟩ : RState)).1).is_black = true by
      norm_num [Spectrum.is_black, Spectrum.add_def, Spectrum.black,
        Spectrum.new_f, EPS])]
  · simp only [spec_pixel_estimate, c6_screen_eval, c6_primary_ray_eval]
    rw [show rtC6.config.samples_per_pixel = 3 from rfl, hcl]
    norm_num [glowTint, Spectrum.new_f, Spectrum.black, Spectrum.add_def,
      Spectrum.smul_def, EPS]
  · norm_num [Spectrum.black, Spectrum.new_f, Spectrum.mk.injEq, EPS]

end Rustracer
